import Mathlib

/-!
# Ticket bot (`bot/bot.go`): counters, thread titles and replies

A shallow embedding of the four slash-command handlers of `bot/bot.go`.

* The two package-level counters are the record `Counters`.  They are shared by
  all handlers and guarded by no lock.
* The chat platform is an external collaborator.  One handler invocation makes
  each platform call at most once, so the answers of the platform for that
  invocation are carried by the record `Session` (the `discord` argument of the
  Go handlers): an error value for every call, and the returned channel and
  messages.
* Every event is handled in a goroutine of its own.  The two handlers that
  touch a counter, `handleBugCommand` and `handleFeatureCommand`, are programs
  (`Prog`): successions of atomic steps, each an outward call or one load or
  store of a counter.  The process (`Pool`) holds the counters and the running
  handlers, and a schedule says which handler takes the next step, so handlers
  overlap whenever the schedule switches between them.  `Prog.exec` and `run`
  are the special case of handlers running one after another, tied to the
  scheduler by `run_alone` and `serial_run`.
* `handleCompleteCommand` and `handleNotDoingCommand` touch no counter; they
  are functions from the platform answers to a `Result`: the counters
  afterwards, the ordered list of calls made (platform calls and console
  lines), and how the handler ended (`returned`, `fatal` for `log.Fatal`,
  `panic` for a Go runtime panic).
* Go `int` is taken as 64 bit; `++` wraps (`wrapInt`).
* A `log.Fatal` or a panic ends the process: no handler moves afterwards.
* A fetched message page is any list, newest message first; it is not assumed
  to respect the requested limit.
-/

namespace Bot

/-! ## Data model -/

/-- Go `error` values: the text of a non-nil error. -/
abbrev Error := String

/-- Channel types are small integer codes (`discordgo.ChannelType`). -/
abbrev ChannelType := Nat

/-- Code of a public thread, `discordgo.ChannelTypeGuildPublicThread`. -/
def ChannelTypeGuildPublicThread : ChannelType := 11

/-- Interaction types are small integer codes (`discordgo.InteractionType`). -/
abbrev InteractionType := Nat

/-- Code of a slash command, `discordgo.InteractionApplicationCommand`. -/
def InteractionApplicationCommand : InteractionType := 2

/-- The fields of `discordgo.Channel` the handlers read (`Type_` is the Go
field `Type`). -/
structure Channel where
  ID : String
  Type_ : ChannelType
  Name : String
deriving Repr, DecidableEq

/-- A user; `Mention` is the text `Author.Mention()` returns. -/
structure User where
  Mention : String
deriving Repr, DecidableEq

/-- The field of `discordgo.Message` the handlers read; fetched messages
always carry their author. -/
structure Message where
  Author : User
deriving Repr, DecidableEq

/-- The fields of `discordgo.InteractionCreate` the handlers read: the
interaction type, the channel, the command name and the string values of the
command options. -/
structure Interaction where
  Type_ : InteractionType
  ChannelID : String
  Name : String
  Options : List String
deriving Repr, DecidableEq

/-- The `discord` session as seen by one handler invocation: the bot user id
(`discord.State.User.ID`) and what each platform call returns. -/
structure Session where
  UserID : String
  Channel : Except Error Channel
  ThreadMemberAdd : Option Error
  ChannelMessages : Except Error (List Message)
  ChannelEdit : Option Error
  InteractionRespond : Option Error

/-- The package-level variables `TicketCountBugReport` and
`TicketCountFeatureRequest`. -/
structure Counters where
  TicketCountBugReport : Int
  TicketCountFeatureRequest : Int
deriving Repr, DecidableEq

/-- Both counters are declared with initial value `0`. -/
def Counters.init : Counters := ⟨0, 0⟩

/-- What a handler does to the outside, in order. -/
inductive Call where
  | Channel (channelID : String)
  | ThreadMemberAdd (threadID memberID : String)
  | ChannelMessages (channelID : String) (limit : Nat)
  | ChannelEdit (channelID : String) (Name : String)
  | InteractionRespond (Content : String)
  | Println (line : String)
  | Fatal (line : String)
deriving Repr, DecidableEq

/-- How a handler invocation ends. -/
inductive Exit where
  | returned
  | fatal
  | panic
deriving Repr, DecidableEq

/-- Outcome of one handler invocation. -/
structure Result where
  counters : Counters
  calls : List Call
  exit : Exit
deriving Repr, DecidableEq

/-! ## Go primitives -/

/-- Two's complement wrap of a 64 bit Go `int`. -/
def wrapInt (x : Int) : Int := (x + 2 ^ 63) % 2 ^ 64 - 2 ^ 63

/-- Largest value of a 64 bit Go `int`. -/
def maxInt : Int := 2 ^ 63 - 1

/-- Smallest value of a 64 bit Go `int`. -/
def minInt : Int := -(2 ^ 63)

/-- The `%d` verb of `fmt.Sprintf` on an `int`. -/
def fmtD (n : Int) : String := toString n

/-- Go slice indexing `xs[i]`: `none` stands for the out-of-range panic. -/
def index {α : Type} (xs : List α) (i : Int) : Option α :=
  if i < 0 then none else xs.get? i.toNat

/-- The line `checkNilErr` hands to `log.Fatal("Error message:", e)`. -/
def fatalLine (e : Error) : String := "Error message:" ++ e

/-- The reply sent outside a public thread. -/
def notThreadReply : String := "This command can only be used in a thread."

/-- Title format of `handleBugCommand`: `fmt.Sprintf("[VICE-BUG-%d] %s", n, name)`. -/
def bugTitle (n : Int) (name : String) : String :=
  "[VICE-BUG-" ++ fmtD n ++ "] " ++ name

/-- Reply format of `handleBugCommand`. -/
def bugReply (originalPosterMention : String) (n : Int) : String :=
  "Good news, " ++ originalPosterMention ++
  "! Your bug report was accepted by the Vice Development Team. We will notify you when it’s complete! Your ticket number is " ++
  fmtD n ++
  ". Please do not reply to this message.\n\nIf you have any questions, please contact the Vice Development Team on Discord.\n\nThank you for your patience!"

/-- Title format of `handleFeatureCommand`: `fmt.Sprintf("[VICE-FEAT-%d] %s", n, name)`. -/
def featureTitle (n : Int) (name : String) : String :=
  "[VICE-FEAT-" ++ fmtD n ++ "] " ++ name

/-- Reply format of `handleFeatureCommand`. -/
def featureReply (originalPosterMention : String) (n : Int) : String :=
  "Good news, " ++ originalPosterMention ++
  "! Your feature request was accepted by the Vice Development Team. We will notify you when it’s complete! Your ticket number is " ++
  fmtD n ++
  ". Please do not reply to this message.\n\nIf you have any questions, please contact the Vice Development Team on Discord.\n\nThank you for your patience!"

/-- Title format of `handleCompleteCommand`: `fmt.Sprintf("✅ %s", channel.Name)`. -/
def completeTitle (channelName : String) : String := "✅ " ++ channelName

/-- Reply format of `handleCompleteCommand`. -/
def completeReply (originalPosterMention : String) : String :=
  "Good news, " ++ originalPosterMention ++
  "! Your bug report or feature request has been marked as complete. Thank you for your patience! ✅"

/-- Title format of `handleNotDoingCommand`: `fmt.Sprintf("%s ❌", channel.Name)`. -/
def notDoingTitle (channelName : String) : String := channelName ++ " ❌"

/-- Reply format of `handleNotDoingCommand`. -/
def notDoingReply (originalPosterMention : String) : String :=
  "Unfortunately, " ++ originalPosterMention ++
  ", your feature request will not be implemented at this time. We appreciate your suggestion and encourage you to keep submitting ideas in the future."

/-! ## Handlers as programs over the shared counters

The counters are package-level variables with no lock, and every event is
handled in a goroutine of its own.  A handler that touches a counter is
therefore a program: a succession of atomic steps, each one either an outward
call or a single load or store of a counter.  `TicketCountBugReport++` is a load
followed by a store, and every later mention of the variable is a fresh load. -/

/-- The atomic steps a handler has still to take. -/
inductive Prog where
  | ret (e : Exit)
  | panic
  | call (c : Call) (k : Prog)
  | loadBug (k : Int → Prog)
  | storeBug (v : Int) (k : Prog)
  | loadFeature (k : Int → Prog)
  | storeFeature (v : Int) (k : Prog)

/-- Exchange the roles of the two counters in a program. -/
def Prog.swap : Prog → Prog
  | .ret e => .ret e
  | .panic => .panic
  | .call c k => .call c k.swap
  | .loadBug k => .loadFeature fun v => (k v).swap
  | .storeBug v k => .storeFeature v k.swap
  | .loadFeature k => .loadBug fun v => (k v).swap
  | .storeFeature v k => .storeBug v k.swap

/-- The program never stores to `TicketCountBugReport`, whatever it loads. -/
def Prog.neverStoresBug : Prog → Prop
  | .ret _ => True
  | .panic => True
  | .call _ k => k.neverStoresBug
  | .loadBug k => ∀ v, (k v).neverStoresBug
  | .storeBug _ _ => False
  | .loadFeature k => ∀ v, (k v).neverStoresBug
  | .storeFeature _ k => k.neverStoresBug

/-- The program never stores to `TicketCountFeatureRequest`, whatever it loads. -/
def Prog.neverStoresFeature : Prog → Prop
  | .ret _ => True
  | .panic => True
  | .call _ k => k.neverStoresFeature
  | .loadBug k => ∀ v, (k v).neverStoresFeature
  | .storeBug _ k => k.neverStoresFeature
  | .loadFeature k => ∀ v, (k v).neverStoresFeature
  | .storeFeature _ _ => False

/-- The program never ends in a runtime panic, whatever it loads. -/
def Prog.neverPanics : Prog → Prop
  | .ret e => e ≠ .panic
  | .panic => False
  | .call _ k => k.neverPanics
  | .loadBug k => ∀ v, (k v).neverPanics
  | .storeBug _ k => k.neverPanics
  | .loadFeature k => ∀ v, (k v).neverPanics
  | .storeFeature _ k => k.neverPanics

/-- One atomic step of a program on the shared counters: the rest of the
program, the counters afterwards and the call made, if any.  A finished program
stays as it is. -/
def Prog.step : Prog → Counters → Prog × Counters × Option Call
  | .ret e, s => (.ret e, s, none)
  | .panic, s => (.ret .panic, s, none)
  | .call c k, s => (k, s, some c)
  | .loadBug k, s => (k s.TicketCountBugReport, s, none)
  | .storeBug v k, s => (k, { s with TicketCountBugReport := v }, none)
  | .loadFeature k, s => (k s.TicketCountFeatureRequest, s, none)
  | .storeFeature v k, s => (k, { s with TicketCountFeatureRequest := v }, none)

/-- The program run alone from start to finish: no other handler takes a step
in between.  `cs` are the calls made before. -/
def Prog.exec : Prog → Counters → List Call → Result
  | .ret e, s, cs => ⟨s, cs, e⟩
  | .panic, s, cs => ⟨s, cs, .panic⟩
  | .call c k, s, cs => k.exec s (cs ++ [c])
  | .loadBug k, s, cs => (k s.TicketCountBugReport).exec s cs
  | .storeBug v k, s, cs => k.exec { s with TicketCountBugReport := v } cs
  | .loadFeature k, s, cs => (k s.TicketCountFeatureRequest).exec s cs
  | .storeFeature v k, s, cs => k.exec { s with TicketCountFeatureRequest := v } cs

/-- Number of steps the program takes when run alone. -/
def Prog.stepsAlone : Prog → Counters → Nat
  | .ret _, _ => 0
  | .panic, _ => 1
  | .call _ k, s => k.stepsAlone s + 1
  | .loadBug k, s => (k s.TicketCountBugReport).stepsAlone s + 1
  | .storeBug v k, s => k.stepsAlone { s with TicketCountBugReport := v } + 1
  | .loadFeature k, s => (k s.TicketCountFeatureRequest).stepsAlone s + 1
  | .storeFeature v k, s => k.stepsAlone { s with TicketCountFeatureRequest := v } + 1

/-- The program that makes the given calls in order and ends with `e`: a
handler that touches no counter. -/
def Prog.ofCalls (cs : List Call) (e : Exit) : Prog :=
  cs.foldr Prog.call (match e with
    | .panic => .panic
    | e => .ret e)

/-- A running handler: what it has still to do and the calls it has made. -/
structure Thread where
  prog : Prog
  calls : List Call

/-- The handler has ended the process: `log.Fatal` or a runtime panic. -/
def Thread.crashed (t : Thread) : Bool :=
  match t.prog with
  | .ret .fatal => true
  | .ret .panic => true
  | _ => false

/-- One atomic step of a running handler. -/
def Thread.step (t : Thread) (s : Counters) : Thread × Counters :=
  match t.prog.step s with
  | (k, s1, some c) => (⟨k, t.calls ++ [c]⟩, s1)
  | (k, s1, none) => (⟨k, t.calls⟩, s1)

/-- The process: the shared counters and the handlers spawned so far, in the
order their events arrived. -/
structure Pool where
  counters : Counters
  threads : List Thread

/-- Some handler has ended the process. -/
def Pool.crashed (p : Pool) : Bool := p.threads.any Thread.crashed

/-- Let the `i`-th handler of the list take one step. -/
def stepAt : List Thread → Nat → Counters → List Thread × Counters
  | [], _, s => ([], s)
  | t :: ts, 0, s => ((t.step s).1 :: ts, (t.step s).2)
  | t :: ts, i + 1, s => (t :: (stepAt ts i s).1, (stepAt ts i s).2)

/-- The scheduler lets handler `i` take one atomic step; nothing moves once
the process has ended. -/
def Pool.step (p : Pool) (i : Nat) : Pool :=
  if p.crashed then p
  else ⟨(stepAt p.threads i p.counters).2, (stepAt p.threads i p.counters).1⟩

/-- The process under a schedule: the list of the handlers that step, in
order.  Handlers overlap whenever the schedule switches between them. -/
def Pool.run (p : Pool) (schedule : List Nat) : Pool :=
  schedule.foldl Pool.step p

/-- The schedule under which the programs run one after another from `s`, each
one from start to finish, the first one being handler number `i`. -/
def serialSchedule : Counters → Nat → List Prog → List Nat
  | _, _, [] => []
  | s, i, p :: rest =>
    List.replicate (p.stepsAlone s) i ++ serialSchedule (p.exec s []).counters (i + 1) rest

/-- A handler that has finished with the given result. -/
def Thread.ofResult (r : Result) : Thread := ⟨.ret r.exit, r.calls⟩

/-! ## The handlers -/

/-- Embedding of `handleBugCommand`.  The counter is loaded and stored by the
`++` at line 155, loaded for the title at line 158 and loaded again for the
reply at line 171. -/
def handleBugCommand (discord : Session) (interaction : Interaction) : Prog :=
  match index interaction.Options 0 with
  | none => .panic
  | some name =>
  .call (.Channel interaction.ChannelID) <|
  match discord.Channel with
  | .error e => .call (.Fatal (fatalLine e)) (.ret .fatal)
  | .ok channel =>
  .call (.ThreadMemberAdd channel.ID discord.UserID) <|
  match discord.ThreadMemberAdd with
  | some e => .call (.Println ("Failed to add bot to thread: " ++ e)) (.ret .returned)
  | none =>
  if channel.Type_ ≠ ChannelTypeGuildPublicThread then
    .call (.InteractionRespond notThreadReply) <|
    match discord.InteractionRespond with
    | some e => .call (.Fatal (fatalLine e)) (.ret .fatal)
    | none => .ret .returned
  else
  .call (.ChannelMessages channel.ID 1) <|
  match discord.ChannelMessages with
  | .error e => .call (.Fatal (fatalLine e)) (.ret .fatal)
  | .ok threadMessages =>
  let poster : Option String :=
    if (threadMessages.length : Int) > 0 then
      (index threadMessages 0).map (fun m => m.Author.Mention)
    else some "unknown user"
  match poster with
  | none => .panic
  | some originalPosterMention =>
  .loadBug fun old =>
  .storeBug (wrapInt (old + 1)) <|
  .loadBug fun titleCount =>
  .call (.ChannelEdit channel.ID (bugTitle titleCount name)) <|
  match discord.ChannelEdit with
  | some e => .call (.Fatal (fatalLine e)) (.ret .fatal)
  | none =>
  .loadBug fun replyCount =>
  .call (.InteractionRespond (bugReply originalPosterMention replyCount)) <|
  match discord.InteractionRespond with
  | some e => .call (.Fatal (fatalLine e)) (.ret .fatal)
  | none =>
  .call (.Println ("Bug report accepted for: " ++ originalPosterMention)) (.ret .returned)

/-- Embedding of `handleFeatureCommand`.  The counter is loaded and stored by
the `++` at line 219, loaded for the title at line 222 and loaded again for the
reply at line 235. -/
def handleFeatureCommand (discord : Session) (interaction : Interaction) : Prog :=
  match index interaction.Options 0 with
  | none => .panic
  | some name =>
  .call (.Channel interaction.ChannelID) <|
  match discord.Channel with
  | .error e => .call (.Fatal (fatalLine e)) (.ret .fatal)
  | .ok channel =>
  .call (.ThreadMemberAdd channel.ID discord.UserID) <|
  match discord.ThreadMemberAdd with
  | some e => .call (.Println ("Failed to add bot to thread: " ++ e)) (.ret .returned)
  | none =>
  if channel.Type_ ≠ ChannelTypeGuildPublicThread then
    .call (.InteractionRespond notThreadReply) <|
    match discord.InteractionRespond with
    | some e => .call (.Fatal (fatalLine e)) (.ret .fatal)
    | none => .ret .returned
  else
  .call (.ChannelMessages channel.ID 1) <|
  match discord.ChannelMessages with
  | .error e => .call (.Fatal (fatalLine e)) (.ret .fatal)
  | .ok threadMessages =>
  let poster : Option String :=
    if (threadMessages.length : Int) > 0 then
      (index threadMessages 0).map (fun m => m.Author.Mention)
    else some "unknown user"
  match poster with
  | none => .panic
  | some originalPosterMention =>
  .loadFeature fun old =>
  .storeFeature (wrapInt (old + 1)) <|
  .loadFeature fun titleCount =>
  .call (.ChannelEdit channel.ID (featureTitle titleCount name)) <|
  match discord.ChannelEdit with
  | some e => .call (.Fatal (fatalLine e)) (.ret .fatal)
  | none =>
  .loadFeature fun replyCount =>
  .call (.InteractionRespond (featureReply originalPosterMention replyCount)) <|
  match discord.InteractionRespond with
  | some e => .call (.Fatal (fatalLine e)) (.ret .fatal)
  | none =>
  .call (.Println ("Feature request accepted for: " ++ originalPosterMention)) (.ret .returned)

/-- Embedding of `handleCompleteCommand`. -/
def handleCompleteCommand (s : Counters) (discord : Session) (interaction : Interaction) : Result :=
  let c1 := [Call.Channel interaction.ChannelID]
  match discord.Channel with
  | .error e => ⟨s, c1 ++ [.Fatal (fatalLine e)], .fatal⟩
  | .ok channel =>
  if channel.Type_ ≠ ChannelTypeGuildPublicThread then
    let c2 := c1 ++ [.InteractionRespond notThreadReply]
    match discord.InteractionRespond with
    | some e => ⟨s, c2 ++ [.Fatal (fatalLine e)], .fatal⟩
    | none => ⟨s, c2, .returned⟩
  else
  let c2 := c1 ++ [.ChannelMessages channel.ID 50]
  match discord.ChannelMessages with
  | .error e => ⟨s, c2 ++ [.Fatal (fatalLine e)], .fatal⟩
  | .ok threadMessages =>
  let poster : Option String :=
    if (threadMessages.length : Int) > 0 then
      (index threadMessages ((threadMessages.length : Int) - 1)).map (fun m => m.Author.Mention)
    else some "unknown user"
  match poster with
  | none => ⟨s, c2, .panic⟩
  | some originalPosterMention =>
  let newTitle := completeTitle channel.Name
  let c3 := c2 ++ [.ChannelEdit channel.ID newTitle]
  match discord.ChannelEdit with
  | some e => ⟨s, c3 ++ [.Fatal (fatalLine e)], .fatal⟩
  | none =>
  let c4 := c3 ++ [.InteractionRespond (completeReply originalPosterMention)]
  match discord.InteractionRespond with
  | some e => ⟨s, c4 ++ [.Fatal (fatalLine e)], .fatal⟩
  | none =>
    ⟨s, c4 ++ [.Println ("Bug report or feature request marked as complete for: " ++
      originalPosterMention)], .returned⟩

/-- Embedding of `handleNotDoingCommand`. -/
def handleNotDoingCommand (s : Counters) (discord : Session) (interaction : Interaction) : Result :=
  let c1 := [Call.Channel interaction.ChannelID]
  match discord.Channel with
  | .error e => ⟨s, c1 ++ [.Fatal (fatalLine e)], .fatal⟩
  | .ok channel =>
  if channel.Type_ ≠ ChannelTypeGuildPublicThread then
    let c2 := c1 ++ [.InteractionRespond notThreadReply]
    match discord.InteractionRespond with
    | some e => ⟨s, c2 ++ [.Fatal (fatalLine e)], .fatal⟩
    | none => ⟨s, c2, .returned⟩
  else
  let c2 := c1 ++ [.ChannelMessages channel.ID 1]
  match discord.ChannelMessages with
  | .error e => ⟨s, c2 ++ [.Fatal (fatalLine e)], .fatal⟩
  | .ok threadMessages =>
  let poster : Option String :=
    if (threadMessages.length : Int) > 0 then
      (index threadMessages 0).map (fun m => m.Author.Mention)
    else some "unknown user"
  match poster with
  | none => ⟨s, c2, .panic⟩
  | some originalPosterMention =>
  let newTitle := notDoingTitle channel.Name
  let c3 := c2 ++ [.ChannelEdit channel.ID newTitle]
  match discord.ChannelEdit with
  | some e => ⟨s, c3 ++ [.Fatal (fatalLine e)], .fatal⟩
  | none =>
  let c4 := c3 ++ [.InteractionRespond (notDoingReply originalPosterMention)]
  match discord.InteractionRespond with
  | some e => ⟨s, c4 ++ [.Fatal (fatalLine e)], .fatal⟩
  | none =>
    ⟨s, c4 ++ [.Println ("Feature request marked as not doing for: " ++
      originalPosterMention)], .returned⟩

/-- Embedding of `interactionHandler`: dispatch on the command name.  The
complete and notdoing handlers touch no counter, so their program is the list
of their calls. -/
def interactionHandler (discord : Session) (interaction : Interaction) : Prog :=
  if interaction.Type_ ≠ InteractionApplicationCommand then .ret .returned
  else if interaction.Name = "bug" then handleBugCommand discord interaction
  else if interaction.Name = "feature" then handleFeatureCommand discord interaction
  else if interaction.Name = "complete" then
    Prog.ofCalls (handleCompleteCommand Counters.init discord interaction).calls
      (handleCompleteCommand Counters.init discord interaction).exit
  else if interaction.Name = "notdoing" then
    Prog.ofCalls (handleNotDoingCommand Counters.init discord interaction).calls
      (handleNotDoingCommand Counters.init discord interaction).exit
  else .ret .returned

/-- The process at the arrival of the events `evs`, with counters `s`: one
handler per event, none of which has taken a step.  An event that is handled
later is one whose handler is scheduled later. -/
def Pool.spawn (s : Counters) (evs : List (Session × Interaction)) : Pool :=
  ⟨s, evs.map fun ev => ⟨interactionHandler ev.1 ev.2, []⟩⟩

/-- Events handled one after the other, each handler running alone from start
to finish, the counters carried from one to the next.  After a `log.Fatal` or a
panic the process is gone and nothing more is handled. -/
def run (s : Counters) : List (Session × Interaction) → List Result
  | [] => []
  | ev :: rest =>
    let r := (interactionHandler ev.1 ev.2).exec s []
    match r.exit with
    | .returned => r :: run r.counters rest
    | _ => [r]

/-! ## Observations on a result -/

/-- Titles the handler asked the platform to set, in order. -/
def Result.renames (r : Result) : List String :=
  r.calls.filterMap fun c => match c with
    | .ChannelEdit _ n => some n
    | _ => none

/-- Replies the handler sent, in order. -/
def Result.replies (r : Result) : List String :=
  r.calls.filterMap fun c => match c with
    | .InteractionRespond t => some t
    | _ => none

/-- Message-history page sizes the handler asked for, in order. -/
def Result.fetchLimits (r : Result) : List Nat :=
  r.calls.filterMap fun c => match c with
    | .ChannelMessages _ n => some n
    | _ => none

/-- Author mention of the first fetched message, or the fallback text. -/
def firstPoster : List Message → String
  | [] => "unknown user"
  | m :: _ => m.Author.Mention

/-- Author mention of the last fetched message, or the fallback text. -/
def lastPoster (ms : List Message) : String :=
  match ms.getLast? with
  | none => "unknown user"
  | some m => m.Author.Mention

/-- The fetched message page of a session (empty when the fetch fails). -/
def Session.messages (d : Session) : List Message :=
  match d.ChannelMessages with
  | .ok ms => ms
  | .error _ => []

/-- The session targets a public thread and every platform call succeeds:
the channel fetch, the thread join, the history fetch, the rename, the reply. -/
def Session.succeeds (d : Session) : Bool :=
  match d.Channel, d.ThreadMemberAdd, d.ChannelMessages, d.ChannelEdit, d.InteractionRespond with
  | .ok ch, none, .ok _, none, none => ch.Type_ == ChannelTypeGuildPublicThread
  | _, _, _, _, _ => false

/-- The event is a slash command named `cmd` that carries its required `name`
option and whose session succeeds. -/
def successfulOpen (cmd : String) (ev : Session × Interaction) : Bool :=
  ev.2.Type_ == InteractionApplicationCommand && ev.2.Name == cmd &&
    !ev.2.Options.isEmpty && ev.1.succeeds

/-- The `name` argument of an open command. -/
def nameArg (i : Interaction) : String := i.Options.headD ""

/-- The events of a run that carry the command `cmd`, in call order. -/
def eventsOf (cmd : String) (evs : List (Session × Interaction)) : List (Session × Interaction) :=
  evs.filter fun ev => ev.2.Name == cmd

/-- The results of the events that carry the command `cmd`, in call order. -/
def resultsOf (cmd : String) (evs : List (Session × Interaction)) (rs : List Result) :
    List Result :=
  ((evs.zip rs).filter fun p => p.1.2.Name == cmd).map fun p => p.2

/-- Counters after a run that started from `s`. -/
def finalCounters (s : Counters) (rs : List Result) : Counters :=
  match rs.getLast? with
  | some r => r.counters
  | none => s

/-- The open transition with the category tag and the category noun left open,
acting on the first counter: the shape `OpenFeatureTicket` is said to share
with `OpenBugTicket`.  The console label is the capitalised noun. -/
def openTicket (tag noun : String) (discord : Session) (interaction : Interaction) : Prog :=
  match index interaction.Options 0 with
  | none => .panic
  | some name =>
  .call (.Channel interaction.ChannelID) <|
  match discord.Channel with
  | .error e => .call (.Fatal (fatalLine e)) (.ret .fatal)
  | .ok channel =>
  .call (.ThreadMemberAdd channel.ID discord.UserID) <|
  match discord.ThreadMemberAdd with
  | some e => .call (.Println ("Failed to add bot to thread: " ++ e)) (.ret .returned)
  | none =>
  if channel.Type_ ≠ ChannelTypeGuildPublicThread then
    .call (.InteractionRespond notThreadReply) <|
    match discord.InteractionRespond with
    | some e => .call (.Fatal (fatalLine e)) (.ret .fatal)
    | none => .ret .returned
  else
  .call (.ChannelMessages channel.ID 1) <|
  match discord.ChannelMessages with
  | .error e => .call (.Fatal (fatalLine e)) (.ret .fatal)
  | .ok threadMessages =>
  let poster : Option String :=
    if (threadMessages.length : Int) > 0 then
      (index threadMessages 0).map (fun m => m.Author.Mention)
    else some "unknown user"
  match poster with
  | none => .panic
  | some originalPosterMention =>
  .loadBug fun old =>
  .storeBug (wrapInt (old + 1)) <|
  .loadBug fun titleCount =>
  .call (.ChannelEdit channel.ID ("[" ++ tag ++ "-" ++ fmtD titleCount ++ "] " ++ name)) <|
  match discord.ChannelEdit with
  | some e => .call (.Fatal (fatalLine e)) (.ret .fatal)
  | none =>
  .loadBug fun replyCount =>
  .call (.InteractionRespond
    ("Good news, " ++ originalPosterMention ++ "! Your " ++ noun ++
     " was accepted by the Vice Development Team. We will notify you when it’s complete! Your ticket number is " ++
     fmtD replyCount ++
     ". Please do not reply to this message.\n\nIf you have any questions, please contact the Vice Development Team on Discord.\n\nThank you for your patience!")) <|
  match discord.InteractionRespond with
  | some e => .call (.Fatal (fatalLine e)) (.ret .fatal)
  | none =>
  .call (.Println (noun.capitalize ++ " accepted for: " ++ originalPosterMention))
    (.ret .returned)

/-- The successful bug open as a program: the steps `handleBugCommand` takes on
a public thread `channel` when no platform call fails, for the poster `poster`
and the argument `name`. -/
def bugOpenSteps (discord : Session) (interaction : Interaction) (channel : Channel)
    (poster name : String) : Prog :=
  .call (.Channel interaction.ChannelID) <|
  .call (.ThreadMemberAdd channel.ID discord.UserID) <|
  .call (.ChannelMessages channel.ID 1) <|
  .loadBug fun old =>
  .storeBug (wrapInt (old + 1)) <|
  .loadBug fun titleCount =>
  .call (.ChannelEdit channel.ID (bugTitle titleCount name)) <|
  .loadBug fun replyCount =>
  .call (.InteractionRespond (bugReply poster replyCount)) <|
  .call (.Println ("Bug report accepted for: " ++ poster)) (.ret .returned)

/-- The successful feature open as a program: the steps `handleFeatureCommand`
takes on a public thread `channel` when no platform call fails, for the poster
`poster` and the argument `name`. -/
def featureOpenSteps (discord : Session) (interaction : Interaction) (channel : Channel)
    (poster name : String) : Prog :=
  .call (.Channel interaction.ChannelID) <|
  .call (.ThreadMemberAdd channel.ID discord.UserID) <|
  .call (.ChannelMessages channel.ID 1) <|
  .loadFeature fun old =>
  .storeFeature (wrapInt (old + 1)) <|
  .loadFeature fun titleCount =>
  .call (.ChannelEdit channel.ID (featureTitle titleCount name)) <|
  .loadFeature fun replyCount =>
  .call (.InteractionRespond (featureReply poster replyCount)) <|
  .call (.Println ("Feature request accepted for: " ++ poster)) (.ret .returned)

/-- Titles a running handler has asked the platform to set, in order. -/
def Thread.renames (t : Thread) : List String :=
  t.calls.filterMap fun c => match c with
    | .ChannelEdit _ n => some n
    | _ => none

/-- Replies a running handler has sent, in order. -/
def Thread.replies (t : Thread) : List String :=
  t.calls.filterMap fun c => match c with
    | .InteractionRespond r => some r
    | _ => none

/-- The handler has returned normally. -/
def Thread.returned (t : Thread) : Bool :=
  match t.prog with
  | .ret .returned => true
  | _ => false

/-- What the `k`-th bug open is expected to show: its title, its reply and the
bug counter after it. -/
def bugExpected (p : Nat × (Session × Interaction)) : List String × List String × Int :=
  ([bugTitle (p.1 : Int) (nameArg p.2.2)],
   [bugReply (firstPoster p.2.1.messages) (p.1 : Int)], (p.1 : Int))

/-- What a result shows of the bug category: titles set, replies sent, counter. -/
def bugShown (r : Result) : List String × List String × Int :=
  (r.renames, r.replies, r.counters.TicketCountBugReport)

/-- What the `k`-th feature open is expected to show: its title, its reply and
the feature counter after it. -/
def featureExpected (p : Nat × (Session × Interaction)) : List String × List String × Int :=
  ([featureTitle (p.1 : Int) (nameArg p.2.2)],
   [featureReply (firstPoster p.2.1.messages) (p.1 : Int)], (p.1 : Int))

/-- What a result shows of the feature category: titles set, replies sent,
counter. -/
def featureShown (r : Result) : List String × List String × Int :=
  (r.renames, r.replies, r.counters.TicketCountFeatureRequest)

/-- The text `sub` occurs in the text `s`. -/
def occursIn (sub s : String) : Prop := sub.data <:+: s.data

instance (sub s : String) : Decidable (occursIn sub s) := by
  unfold occursIn; infer_instance

/-! ## Concrete inputs -/

/-- A session on channel `chan-1` of type `ty` titled `title`, with message
page `ms`, in which every platform call succeeds. -/
def okSession (ty : ChannelType) (title : String) (ms : List Message) : Session :=
  ⟨"bot", .ok ⟨"chan-1", ty, title⟩, none, .ok ms, none, none⟩

/-- A session on a text channel (type code 0) in which the thread join is
refused and every other call would succeed. -/
def joinRefusedSession : Session :=
  ⟨"bot", .ok ⟨"chan-1", 0, "general"⟩, some "HTTP 400 Bad Request", .ok [], none, none⟩

/-- The slash command `cmd` with the given option values. -/
def slash (cmd : String) (opts : List String) : Interaction :=
  ⟨InteractionApplicationCommand, "chan-1", cmd, opts⟩

/-- A message written by the user mentioned as `mention`. -/
def msgBy (mention : String) : Message := ⟨⟨mention⟩⟩

/-- Two bug opens in a row. -/
def twoBugs : List (Session × Interaction) :=
  [(okSession ChannelTypeGuildPublicThread "Crash" [msgBy "@alice"], slash "bug" ["Crash on load"]),
   (okSession ChannelTypeGuildPublicThread "Leak" [], slash "bug" ["Memory leak"])]

/-- A feature open between two bug opens, then another feature open. -/
def mixedOpens : List (Session × Interaction) :=
  [(okSession ChannelTypeGuildPublicThread "Crash" [msgBy "@alice"], slash "bug" ["Crash on load"]),
   (okSession ChannelTypeGuildPublicThread "Dark" [msgBy "@bob"], slash "feature" ["Dark mode"]),
   (okSession ChannelTypeGuildPublicThread "Leak" [], slash "bug" ["Memory leak"]),
   (okSession ChannelTypeGuildPublicThread "Zoom" [msgBy "@carol"], slash "feature" ["Zoom"])]

/-- A public thread whose fetched page holds one message by `@alice`; every
platform call succeeds. -/
def aliceThread : Session :=
  okSession ChannelTypeGuildPublicThread "help wanted" [msgBy "@alice"]

/-- The command `/bug name:"Crash on load"`. -/
def crashBug : Interaction := slash "bug" ["Crash on load"]

/-- The command `/feature name:"Dark mode"`. -/
def darkFeature : Interaction := slash "feature" ["Dark mode"]

/-- A public thread whose history fetch returns no message; every platform
call succeeds. -/
def emptyThread : Session := okSession ChannelTypeGuildPublicThread "help wanted" []

/-- A public thread whose fetched page lists, newest first, messages by
`@carol`, `@bob` and `@alice`; every platform call succeeds. -/
def busyThread : Session :=
  okSession ChannelTypeGuildPublicThread "help wanted"
    [msgBy "@carol", msgBy "@bob", msgBy "@alice"]

/-- The command `/complete` as the platform sends it: it is registered
without options. -/
def completeCmd : Interaction := slash "complete" []

/-- The command `/notdoing`, registered without options. -/
def notDoingCmd : Interaction := slash "notdoing" []

/-- Two feature opens in a row. -/
def twoFeatures : List (Session × Interaction) :=
  [(okSession ChannelTypeGuildPublicThread "Dark" [msgBy "@bob"], slash "feature" ["Dark mode"]),
   (okSession ChannelTypeGuildPublicThread "Zoom" [], slash "feature" ["Zoom"])]

/-- A bug open, a feature open and another bug open, in arrival order. -/
def threeOpens : List (Session × Interaction) :=
  [(okSession ChannelTypeGuildPublicThread "Crash" [msgBy "@alice"], slash "bug" ["Crash on load"]),
   (okSession ChannelTypeGuildPublicThread "Dark" [msgBy "@bob"], slash "feature" ["Dark mode"]),
   (okSession ChannelTypeGuildPublicThread "Leak" [], slash "bug" ["Memory leak"])]

/-- Two handlers: the first one has sent its channel request and waits for the
answer while the second one runs from start to finish (10 steps); then the
first one takes its remaining 9 steps. -/
def waitingFirst : List Nat := [0] ++ List.replicate 10 1 ++ List.replicate 9 0

/-- Two handlers: the first one runs up to and including its rename request
(7 steps) and waits for the answer; the second one runs up to and including its
increment (5 steps); the first one then finishes (3 steps), and the second one
(5 steps). -/
def waitingOnRename : List Nat :=
  List.replicate 7 0 ++ List.replicate 5 1 ++ List.replicate 3 0 ++ List.replicate 5 1

/-- Three handlers: the first one has sent its channel request and waits while
the second and the third run from start to finish; then the first one
finishes. -/
def waitingFirstOfThree : List Nat :=
  [0] ++ List.replicate 10 1 ++ List.replicate 10 2 ++ List.replicate 9 0

/-- A run of `2 ^ 63` bug opens: one more than the largest value of a 64 bit Go
`int`. -/
def manyBugs : List (Session × Interaction) :=
  List.replicate 9223372036854775807 (aliceThread, crashBug) ++ [(aliceThread, crashBug)]

/-! ## Basic facts -/

theorem wrapInt_succ {c : Int} (h0 : minInt ≤ c) (h1 : c < maxInt) :
    wrapInt (c + 1) = c + 1 := by
  unfold wrapInt
  unfold minInt at h0
  unfold maxInt at h1
  omega

theorem poster_first (ms : List Message) :
    (if (ms.length : Int) > 0 then (index ms 0).map (fun m => m.Author.Mention)
      else some "unknown user") = some (firstPoster ms) := by
  cases ms with
  | nil => simp [firstPoster]
  | cons m rest =>
    have h : ((m :: rest).length : Int) > 0 := by simp
    simp [firstPoster, index, h]

theorem poster_last (ms : List Message) :
    (if (ms.length : Int) > 0 then
        (index ms ((ms.length : Int) - 1)).map (fun m => m.Author.Mention)
      else some "unknown user") = some (lastPoster ms) := by
  cases ms with
  | nil => simp [lastPoster]
  | cons m rest =>
    have h : ((m :: rest).length : Int) > 0 := by simp
    have h2 : ¬ (((m :: rest).length : Int) - 1 < 0) := by simp
    have h3 : (((m :: rest).length : Int) - 1).toNat = (m :: rest).length - 1 := by simp
    rw [if_pos h]
    unfold index
    rw [if_neg h2, h3, lastPoster, List.getLast?_eq_getElem?]
    simp only [List.get?_eq_getElem?]
    cases hx : (m :: rest)[(m :: rest).length - 1]? <;> simp
    simp at hx

theorem handleBugCommand_ok {d : Session} {i : Interaction} {ch : Channel}
    {ms : List Message} {name : String} {rest : List String}
    (hopt : i.Options = name :: rest) (hch : d.Channel = .ok ch)
    (hty : ch.Type_ = ChannelTypeGuildPublicThread) (hjoin : d.ThreadMemberAdd = none)
    (hms : d.ChannelMessages = .ok ms) (hedit : d.ChannelEdit = none)
    (hresp : d.InteractionRespond = none) :
    handleBugCommand d i = bugOpenSteps d i ch (firstPoster ms) name := by
  unfold handleBugCommand bugOpenSteps
  simp only [hopt, hch, hjoin, hms, hedit, hresp, poster_first, hty]
  simp [index]

theorem bugOpenSteps_exec (d : Session) (i : Interaction) (ch : Channel) (p name : String)
    (s : Counters) (cs : List Call) :
    (bugOpenSteps d i ch p name).exec s cs =
      ⟨{ s with TicketCountBugReport := wrapInt (s.TicketCountBugReport + 1) },
       cs ++ [.Channel i.ChannelID, .ThreadMemberAdd ch.ID d.UserID, .ChannelMessages ch.ID 1,
        .ChannelEdit ch.ID (bugTitle (wrapInt (s.TicketCountBugReport + 1)) name),
        .InteractionRespond (bugReply p (wrapInt (s.TicketCountBugReport + 1))),
        .Println ("Bug report accepted for: " ++ p)], .returned⟩ := by
  simp [bugOpenSteps, Prog.exec]

theorem handleFeatureCommand_ok {d : Session} {i : Interaction} {ch : Channel}
    {ms : List Message} {name : String} {rest : List String}
    (hopt : i.Options = name :: rest) (hch : d.Channel = .ok ch)
    (hty : ch.Type_ = ChannelTypeGuildPublicThread) (hjoin : d.ThreadMemberAdd = none)
    (hms : d.ChannelMessages = .ok ms) (hedit : d.ChannelEdit = none)
    (hresp : d.InteractionRespond = none) :
    handleFeatureCommand d i = featureOpenSteps d i ch (firstPoster ms) name := by
  unfold handleFeatureCommand featureOpenSteps
  simp only [hopt, hch, hjoin, hms, hedit, hresp, poster_first, hty]
  simp [index]

theorem featureOpenSteps_exec (d : Session) (i : Interaction) (ch : Channel)
    (p name : String) (s : Counters) (cs : List Call) :
    (featureOpenSteps d i ch p name).exec s cs =
      ⟨{ s with TicketCountFeatureRequest := wrapInt (s.TicketCountFeatureRequest + 1) },
       cs ++ [.Channel i.ChannelID, .ThreadMemberAdd ch.ID d.UserID, .ChannelMessages ch.ID 1,
        .ChannelEdit ch.ID (featureTitle (wrapInt (s.TicketCountFeatureRequest + 1)) name),
        .InteractionRespond (featureReply p (wrapInt (s.TicketCountFeatureRequest + 1))),
        .Println ("Feature request accepted for: " ++ p)], .returned⟩ := by
  simp [featureOpenSteps, Prog.exec]

theorem handleCompleteCommand_ok {s : Counters} {d : Session} {i : Interaction} {ch : Channel}
    {ms : List Message} (hch : d.Channel = .ok ch)
    (hty : ch.Type_ = ChannelTypeGuildPublicThread)
    (hms : d.ChannelMessages = .ok ms) (hedit : d.ChannelEdit = none)
    (hresp : d.InteractionRespond = none) :
    handleCompleteCommand s d i =
      ⟨s, [.Channel i.ChannelID, .ChannelMessages ch.ID 50,
        .ChannelEdit ch.ID (completeTitle ch.Name),
        .InteractionRespond (completeReply (lastPoster ms)),
        .Println ("Bug report or feature request marked as complete for: " ++ lastPoster ms)],
       .returned⟩ := by
  unfold handleCompleteCommand
  simp only [hch, hms, hedit, hresp, poster_last, hty]
  simp

theorem handleNotDoingCommand_ok {s : Counters} {d : Session} {i : Interaction} {ch : Channel}
    {ms : List Message} (hch : d.Channel = .ok ch)
    (hty : ch.Type_ = ChannelTypeGuildPublicThread)
    (hms : d.ChannelMessages = .ok ms) (hedit : d.ChannelEdit = none)
    (hresp : d.InteractionRespond = none) :
    handleNotDoingCommand s d i =
      ⟨s, [.Channel i.ChannelID, .ChannelMessages ch.ID 1,
        .ChannelEdit ch.ID (notDoingTitle ch.Name),
        .InteractionRespond (notDoingReply (firstPoster ms)),
        .Println ("Feature request marked as not doing for: " ++ firstPoster ms)],
       .returned⟩ := by
  unfold handleNotDoingCommand
  simp only [hch, hms, hedit, hresp, poster_first, hty]
  simp

theorem successfulOpen_spec {cmd : String} {ev : Session × Interaction}
    (h : successfulOpen cmd ev = true) :
    ev.2.Type_ = InteractionApplicationCommand ∧ ev.2.Name = cmd ∧
    (∃ rest, ev.2.Options = nameArg ev.2 :: rest) ∧
    ∃ ch, ev.1.Channel = .ok ch ∧ ch.Type_ = ChannelTypeGuildPublicThread ∧
      ev.1.ThreadMemberAdd = none ∧ ev.1.ChannelMessages = .ok ev.1.messages ∧
      ev.1.ChannelEdit = none ∧ ev.1.InteractionRespond = none := by
  obtain ⟨d, i⟩ := ev
  simp only [successfulOpen, Bool.and_eq_true, beq_iff_eq, Bool.not_eq_true',
    List.isEmpty_eq_false] at h
  obtain ⟨⟨⟨h1, h2⟩, h3⟩, h4⟩ := h
  refine ⟨h1, h2, ?_, ?_⟩
  · cases ho : i.Options with
    | nil => simp [ho] at h3
    | cons a r => exact ⟨r, by simp [nameArg, ho]⟩
  · unfold Session.succeeds at h4
    split at h4
    · rename_i ch ms hc hj hm he hr
      exact ⟨ch, hc, by simpa using h4, hj, by simp [Session.messages, hm], he, hr⟩
    · simp at h4

theorem step_bug {s : Counters} {ev : Session × Interaction}
    (h : successfulOpen "bug" ev = true) :
    ((interactionHandler ev.1 ev.2).exec s []).exit = .returned ∧
    ((interactionHandler ev.1 ev.2).exec s []).counters =
      { s with TicketCountBugReport := wrapInt (s.TicketCountBugReport + 1) } ∧
    ((interactionHandler ev.1 ev.2).exec s []).renames =
      [bugTitle (wrapInt (s.TicketCountBugReport + 1)) (nameArg ev.2)] ∧
    ((interactionHandler ev.1 ev.2).exec s []).replies =
      [bugReply (firstPoster ev.1.messages) (wrapInt (s.TicketCountBugReport + 1))] := by
  obtain ⟨h1, h2, ⟨rest, h3⟩, ch, hc, hty, hj, hm, he, hr⟩ := successfulOpen_spec h
  have hh : interactionHandler ev.1 ev.2 = handleBugCommand ev.1 ev.2 := by
    simp [interactionHandler, h1, h2]
  rw [hh, handleBugCommand_ok h3 hc hty hj hm he hr, bugOpenSteps_exec]
  simp [Result.renames, Result.replies]

theorem step_feature {s : Counters} {ev : Session × Interaction}
    (h : successfulOpen "feature" ev = true) :
    ((interactionHandler ev.1 ev.2).exec s []).exit = .returned ∧
    ((interactionHandler ev.1 ev.2).exec s []).counters =
      { s with TicketCountFeatureRequest := wrapInt (s.TicketCountFeatureRequest + 1) } ∧
    ((interactionHandler ev.1 ev.2).exec s []).renames =
      [featureTitle (wrapInt (s.TicketCountFeatureRequest + 1)) (nameArg ev.2)] ∧
    ((interactionHandler ev.1 ev.2).exec s []).replies =
      [featureReply (firstPoster ev.1.messages) (wrapInt (s.TicketCountFeatureRequest + 1))] := by
  obtain ⟨h1, h2, ⟨rest, h3⟩, ch, hc, hty, hj, hm, he, hr⟩ := successfulOpen_spec h
  have hh : interactionHandler ev.1 ev.2 = handleFeatureCommand ev.1 ev.2 := by
    simp [interactionHandler, h1, h2]
  rw [hh, handleFeatureCommand_ok h3 hc hty hj hm he hr, featureOpenSteps_exec]
  simp [Result.renames, Result.replies]

theorem finalCounters_cons (s : Counters) (r : Result) (rs : List Result) :
    finalCounters s (r :: rs) = finalCounters r.counters rs := by
  cases rs with
  | nil => simp [finalCounters]
  | cons r2 rs =>
    simp only [finalCounters, List.getLast?_cons_cons]
    cases hl : (r2 :: rs).getLast? with
    | none => simp at hl
    | some x => rfl

theorem run_cons_returned {s : Counters} {ev : Session × Interaction}
    {rest : List (Session × Interaction)}
    (h : ((interactionHandler ev.1 ev.2).exec s []).exit = .returned) :
    run s (ev :: rest) =
      (interactionHandler ev.1 ev.2).exec s [] ::
        run ((interactionHandler ev.1 ev.2).exec s []).counters rest := by
  simp [run, h]

theorem run_bug (evs : List (Session × Interaction)) :
    ∀ (s : Counters) (b : Nat), s.TicketCountBugReport = (b : Int) →
      (∀ ev ∈ evs, successfulOpen "bug" ev = true) →
      ((b : Int) + (evs.length : Int) ≤ maxInt) →
      (run s evs).map bugShown = (evs.enumFrom (b + 1)).map bugExpected ∧
      finalCounters s (run s evs) =
        { s with TicketCountBugReport := (b : Int) + (evs.length : Int) } := by
  induction evs with
  | nil =>
    intro s b hb _ _
    simp [run, finalCounters, ← hb]
  | cons ev rest ih =>
    intro s b hb hok hbound
    have hev := hok ev (List.mem_cons_self _ _)
    obtain ⟨hx, hcnt, hren, hrep⟩ := step_bug (s := s) hev
    have hw : wrapInt (s.TicketCountBugReport + 1) = ((b + 1 : Nat) : Int) := by
      rw [hb, wrapInt_succ]
      · push_cast; rfl
      · unfold minInt; omega
      · simp only [List.length_cons] at hbound; push_cast at hbound; omega
    rw [hw] at hcnt hren hrep
    have hrec := ih ((interactionHandler ev.1 ev.2).exec s []).counters (b + 1) (by rw [hcnt])
      (fun e he => hok e (List.mem_cons_of_mem _ he))
      (by simp only [List.length_cons] at hbound; push_cast at hbound ⊢; omega)
    rw [run_cons_returned hx, finalCounters_cons]
    refine ⟨?_, ?_⟩
    · simp only [List.map_cons, List.enumFrom_cons, hrec.1]
      congr 1
      simp [bugShown, bugExpected, hren, hrep, hcnt]
    · rw [hrec.2, hcnt]
      simp only [List.length_cons]
      push_cast
      congr 1
      omega

theorem eventsOf_cons_same {cmd : String} {ev : Session × Interaction}
    (rest : List (Session × Interaction)) (h : ev.2.Name = cmd) :
    eventsOf cmd (ev :: rest) = ev :: eventsOf cmd rest := by
  simp [eventsOf, h]

theorem eventsOf_cons_other {cmd : String} {ev : Session × Interaction}
    (rest : List (Session × Interaction)) (h : ev.2.Name ≠ cmd) :
    eventsOf cmd (ev :: rest) = eventsOf cmd rest := by
  simp [eventsOf, h]

theorem resultsOf_cons_same {cmd : String} {ev : Session × Interaction}
    (rest : List (Session × Interaction)) (r : Result) (rs : List Result)
    (h : ev.2.Name = cmd) :
    resultsOf cmd (ev :: rest) (r :: rs) = r :: resultsOf cmd rest rs := by
  simp [resultsOf, h]

theorem resultsOf_cons_other {cmd : String} {ev : Session × Interaction}
    (rest : List (Session × Interaction)) (r : Result) (rs : List Result)
    (h : ev.2.Name ≠ cmd) :
    resultsOf cmd (ev :: rest) (r :: rs) = resultsOf cmd rest rs := by
  simp [resultsOf, h]

theorem run_opens (evs : List (Session × Interaction)) :
    ∀ (s : Counters) (b f : Nat), s.TicketCountBugReport = (b : Int) →
      s.TicketCountFeatureRequest = (f : Int) →
      (∀ ev ∈ evs, successfulOpen "bug" ev = true ∨ successfulOpen "feature" ev = true) →
      ((b : Int) + ((eventsOf "bug" evs).length : Int) ≤ maxInt) →
      ((f : Int) + ((eventsOf "feature" evs).length : Int) ≤ maxInt) →
      (run s evs).length = evs.length ∧
      (resultsOf "bug" evs (run s evs)).map bugShown =
        ((eventsOf "bug" evs).enumFrom (b + 1)).map bugExpected ∧
      (resultsOf "feature" evs (run s evs)).map featureShown =
        ((eventsOf "feature" evs).enumFrom (f + 1)).map featureExpected ∧
      finalCounters s (run s evs) =
        ⟨(b : Int) + ((eventsOf "bug" evs).length : Int),
         (f : Int) + ((eventsOf "feature" evs).length : Int)⟩ := by
  induction evs with
  | nil =>
    intro s b f hb hf _ _ _
    simp [run, finalCounters, eventsOf, resultsOf, ← hb, ← hf]
  | cons ev rest ih =>
    intro s b f hb hf hok hbb hbf
    have hrest := fun e he => hok e (List.mem_cons_of_mem ev he)
    rcases hok ev (List.mem_cons_self _ _) with hev | hev
    · have hname : ev.2.Name = "bug" := (successfulOpen_spec hev).2.1
      have hne : ev.2.Name ≠ "feature" := by rw [hname]; decide
      obtain ⟨hx, hcnt, hren, hrep⟩ := step_bug (s := s) hev
      rw [eventsOf_cons_same rest hname] at hbb
      rw [eventsOf_cons_other rest hne] at hbf
      simp only [List.length_cons] at hbb
      push_cast at hbb
      have hw : wrapInt (s.TicketCountBugReport + 1) = ((b + 1 : Nat) : Int) := by
        rw [hb, wrapInt_succ]
        · push_cast; rfl
        · unfold minInt; omega
        · omega
      rw [hw] at hcnt hren hrep
      obtain ⟨r1, r2, r3, r4⟩ := ih ((interactionHandler ev.1 ev.2).exec s []).counters (b + 1) f
        (by rw [hcnt]) (by rw [hcnt]; exact hf) hrest (by push_cast; omega) hbf
      rw [run_cons_returned hx, finalCounters_cons, eventsOf_cons_same rest hname,
        eventsOf_cons_other rest hne, resultsOf_cons_same rest _ _ hname,
        resultsOf_cons_other rest _ _ hne]
      refine ⟨by simp [r1], ?_, r3, ?_⟩
      · simp only [List.map_cons, List.enumFrom_cons, r2]
        congr 1
        simp [bugShown, bugExpected, hren, hrep, hcnt]
      · rw [r4]
        simp only [List.length_cons]
        push_cast
        congr 1
        omega
    · have hname : ev.2.Name = "feature" := (successfulOpen_spec hev).2.1
      have hne : ev.2.Name ≠ "bug" := by rw [hname]; decide
      obtain ⟨hx, hcnt, hren, hrep⟩ := step_feature (s := s) hev
      rw [eventsOf_cons_same rest hname] at hbf
      rw [eventsOf_cons_other rest hne] at hbb
      simp only [List.length_cons] at hbf
      push_cast at hbf
      have hw : wrapInt (s.TicketCountFeatureRequest + 1) = ((f + 1 : Nat) : Int) := by
        rw [hf, wrapInt_succ]
        · push_cast; rfl
        · unfold minInt; omega
        · omega
      rw [hw] at hcnt hren hrep
      obtain ⟨r1, r2, r3, r4⟩ := ih ((interactionHandler ev.1 ev.2).exec s []).counters b (f + 1)
        (by rw [hcnt]; exact hb) (by rw [hcnt]) hrest hbb (by push_cast; omega)
      rw [run_cons_returned hx, finalCounters_cons, eventsOf_cons_same rest hname,
        eventsOf_cons_other rest hne, resultsOf_cons_same rest _ _ hname,
        resultsOf_cons_other rest _ _ hne]
      refine ⟨by simp [r1], r2, ?_, ?_⟩
      · simp only [List.map_cons, List.enumFrom_cons, r3]
        congr 1
        simp [featureShown, featureExpected, hren, hrep, hcnt]
      · rw [r4]
        simp only [List.length_cons]
        push_cast
        congr 1
        omega

/-! ## Templates of the open transition -/

theorem openTitle_bug (n : Int) (name : String) :
    "[" ++ "VICE-BUG" ++ "-" ++ fmtD n ++ "] " ++ name = bugTitle n name := by
  have h : "[VICE-BUG-" = "[" ++ "VICE-BUG" ++ "-" := by decide
  rw [bugTitle, h]

theorem openTitle_feature (n : Int) (name : String) :
    "[" ++ "VICE-FEAT" ++ "-" ++ fmtD n ++ "] " ++ name = featureTitle n name := by
  have h : "[VICE-FEAT-" = "[" ++ "VICE-FEAT" ++ "-" := by decide
  rw [featureTitle, h]

theorem openReply_bug (poster : String) (n : Int) :
    "Good news, " ++ poster ++ "! Your " ++ "bug report" ++
     " was accepted by the Vice Development Team. We will notify you when it’s complete! Your ticket number is " ++
     fmtD n ++
     ". Please do not reply to this message.\n\nIf you have any questions, please contact the Vice Development Team on Discord.\n\nThank you for your patience!"
     = bugReply poster n := by
  have h : "! Your bug report was accepted by the Vice Development Team. We will notify you when it’s complete! Your ticket number is " = "! Your " ++ ("bug report" ++
     " was accepted by the Vice Development Team. We will notify you when it’s complete! Your ticket number is ") := by decide
  rw [bugReply, h]
  simp only [String.append_assoc]

theorem openReply_feature (poster : String) (n : Int) :
    "Good news, " ++ poster ++ "! Your " ++ "feature request" ++
     " was accepted by the Vice Development Team. We will notify you when it’s complete! Your ticket number is " ++
     fmtD n ++
     ". Please do not reply to this message.\n\nIf you have any questions, please contact the Vice Development Team on Discord.\n\nThank you for your patience!"
     = featureReply poster n := by
  have h : "! Your feature request was accepted by the Vice Development Team. We will notify you when it’s complete! Your ticket number is " = "! Your " ++ ("feature request" ++
     " was accepted by the Vice Development Team. We will notify you when it’s complete! Your ticket number is ") := by decide
  rw [featureReply, h]
  simp only [String.append_assoc]

theorem openLabel_bug (poster : String) :
    "bug report".capitalize ++ " accepted for: " ++ poster = "Bug report accepted for: " ++ poster := by
  have h : "Bug report accepted for: " = "bug report".capitalize ++ " accepted for: " := by decide
  rw [h]

theorem openLabel_feature (poster : String) :
    "feature request".capitalize ++ " accepted for: " ++ poster =
      "Feature request accepted for: " ++ poster := by
  have h : "Feature request accepted for: " = "feature request".capitalize ++ " accepted for: " := by
    decide
  rw [h]

/-! ## Replies, posters and titles -/

theorem frame_complete (s : Counters) (d : Session) (i : Interaction) :
    (handleCompleteCommand s d i).counters = s := by
  unfold handleCompleteCommand
  simp only [poster_last]
  repeat' split
  all_goals rfl

theorem frame_notDoing (s : Counters) (d : Session) (i : Interaction) :
    (handleNotDoingCommand s d i).counters = s := by
  unfold handleNotDoingCommand
  simp only [poster_first]
  repeat' split
  all_goals rfl

theorem occursIn_mid (a b c : String) : occursIn b (a ++ b ++ c) :=
  ⟨a.data, c.data, by simp [String.data_append]⟩

theorem bugReply_mentions (p : String) (n : Int) :
    occursIn p (bugReply p n) ∧ occursIn (fmtD n) (bugReply p n) := by
  constructor
  · unfold bugReply
    simp only [String.append_assoc]
    rw [← String.append_assoc]
    exact occursIn_mid _ _ _
  · unfold bugReply
    exact occursIn_mid _ _ _

theorem featureReply_mentions (p : String) (n : Int) :
    occursIn p (featureReply p n) ∧ occursIn (fmtD n) (featureReply p n) := by
  constructor
  · unfold featureReply
    simp only [String.append_assoc]
    rw [← String.append_assoc]
    exact occursIn_mid _ _ _
  · unfold featureReply
    exact occursIn_mid _ _ _

theorem completeReply_mentions (p : String) : occursIn p (completeReply p) :=
  occursIn_mid _ _ _

theorem notDoingReply_mentions (p : String) : occursIn p (notDoingReply p) :=
  occursIn_mid _ _ _

theorem firstPoster_eq_head (ms : List Message) (h : ms ≠ []) :
    firstPoster ms = (ms.head h).Author.Mention := by
  cases ms with
  | nil => exact absurd rfl h
  | cons m rest => rfl

theorem lastPoster_eq_getLast (ms : List Message) (h : ms ≠ []) :
    lastPoster ms = (ms.getLast h).Author.Mention := by
  unfold lastPoster
  rw [List.getLast?_eq_getLast ms h]

theorem doubleCheck_ne (t : String) : "✅ ✅ " ++ t ≠ "✅ " ++ t := by
  intro h
  have hl := congrArg String.length h
  simp only [String.length_append] at hl
  have h1 : "✅ ✅ ".length = 4 := by decide
  have h2 : "✅ ".length = 2 := by decide
  omega

theorem completeTitle_twice (t : String) :
    completeTitle (completeTitle t) = "✅ ✅ " ++ t := by
  have h : "✅ ✅ " = "✅ " ++ "✅ " := by decide
  rw [completeTitle, completeTitle, h, String.append_assoc]

theorem run_project_bug (evs : List (Session × Interaction)) :
    ∀ (s t : Counters), s.TicketCountBugReport = t.TicketCountBugReport →
      (∀ ev ∈ evs, successfulOpen "bug" ev = true ∨ successfulOpen "feature" ev = true) →
      (resultsOf "bug" evs (run s evs)).map bugShown =
        (run t (eventsOf "bug" evs)).map bugShown := by
  induction evs with
  | nil => intro s t _ _; simp [run, eventsOf, resultsOf]
  | cons ev rest ih =>
    intro s t hst hok
    have hrest := fun e he => hok e (List.mem_cons_of_mem ev he)
    rcases hok ev (List.mem_cons_self _ _) with hev | hev
    · have hname : ev.2.Name = "bug" := (successfulOpen_spec hev).2.1
      obtain ⟨hx, hcnt, hren, hrep⟩ := step_bug (s := s) hev
      obtain ⟨hx2, hcnt2, hren2, hrep2⟩ := step_bug (s := t) hev
      rw [run_cons_returned hx, eventsOf_cons_same rest hname, run_cons_returned hx2,
        resultsOf_cons_same rest _ _ hname]
      simp only [List.map_cons]
      rw [ih ((interactionHandler ev.1 ev.2).exec s []).counters ((interactionHandler ev.1 ev.2).exec t []).counters
        (by rw [hcnt, hcnt2]; simp [hst]) hrest]
      congr 1
      simp [bugShown, hren, hrep, hcnt, hren2, hrep2, hcnt2, hst]
    · have hname : ev.2.Name = "feature" := (successfulOpen_spec hev).2.1
      have hne : ev.2.Name ≠ "bug" := by rw [hname]; decide
      obtain ⟨hx, hcnt, _, _⟩ := step_feature (s := s) hev
      rw [run_cons_returned hx, eventsOf_cons_other rest hne,
        resultsOf_cons_other rest _ _ hne]
      exact ih ((interactionHandler ev.1 ev.2).exec s []).counters t (by rw [hcnt]; exact hst) hrest

theorem run_project_feature (evs : List (Session × Interaction)) :
    ∀ (s t : Counters), s.TicketCountFeatureRequest = t.TicketCountFeatureRequest →
      (∀ ev ∈ evs, successfulOpen "bug" ev = true ∨ successfulOpen "feature" ev = true) →
      (resultsOf "feature" evs (run s evs)).map featureShown =
        (run t (eventsOf "feature" evs)).map featureShown := by
  induction evs with
  | nil => intro s t _ _; simp [run, eventsOf, resultsOf]
  | cons ev rest ih =>
    intro s t hst hok
    have hrest := fun e he => hok e (List.mem_cons_of_mem ev he)
    rcases hok ev (List.mem_cons_self _ _) with hev | hev
    · have hname : ev.2.Name = "bug" := (successfulOpen_spec hev).2.1
      have hne : ev.2.Name ≠ "feature" := by rw [hname]; decide
      obtain ⟨hx, hcnt, _, _⟩ := step_bug (s := s) hev
      rw [run_cons_returned hx, eventsOf_cons_other rest hne,
        resultsOf_cons_other rest _ _ hne]
      exact ih ((interactionHandler ev.1 ev.2).exec s []).counters t (by rw [hcnt]; exact hst) hrest
    · have hname : ev.2.Name = "feature" := (successfulOpen_spec hev).2.1
      obtain ⟨hx, hcnt, hren, hrep⟩ := step_feature (s := s) hev
      obtain ⟨hx2, hcnt2, hren2, hrep2⟩ := step_feature (s := t) hev
      rw [run_cons_returned hx, eventsOf_cons_same rest hname, run_cons_returned hx2,
        resultsOf_cons_same rest _ _ hname]
      simp only [List.map_cons]
      rw [ih ((interactionHandler ev.1 ev.2).exec s []).counters ((interactionHandler ev.1 ev.2).exec t []).counters
        (by rw [hcnt, hcnt2]; simp [hst]) hrest]
      congr 1
      simp [featureShown, hren, hrep, hcnt, hren2, hrep2, hcnt2, hst]

theorem no_panic_complete (s : Counters) (d : Session) (i : Interaction) :
    (handleCompleteCommand s d i).exit ≠ .panic := by
  unfold handleCompleteCommand
  simp only [poster_last]
  repeat' split
  all_goals simp

theorem no_panic_notDoing (s : Counters) (d : Session) (i : Interaction) :
    (handleNotDoingCommand s d i).exit ≠ .panic := by
  unfold handleNotDoingCommand
  simp only [poster_first]
  repeat' split
  all_goals simp

theorem index_zero_of_ne_nil {xs : List String} (h : xs ≠ []) :
    ∃ x, index xs 0 = some x := by
  cases xs with
  | nil => exact absurd rfl h
  | cons x rest => exact ⟨x, by simp [index]⟩

/-! ## Facts about the scheduler -/

theorem stepAt_append (dn : List Thread) (t : Thread) (todo : List Thread) (s : Counters) :
    stepAt (dn ++ t :: todo) dn.length s = (dn ++ (t.step s).1 :: todo, (t.step s).2) := by
  induction dn with
  | nil => rfl
  | cons d dn ih => simp [stepAt, ih]

theorem crashed_append (dn : List Thread) (t : Thread) (todo : List Thread) :
    Pool.crashed ⟨s, dn ++ t :: todo⟩ =
      (dn.any Thread.crashed || (t.crashed || todo.any Thread.crashed)) := by
  simp [Pool.crashed, List.any_append]

theorem Pool.step_append {s : Counters} {dn todo : List Thread} {t : Thread}
    (hdn : dn.any Thread.crashed = false) (ht : t.crashed = false)
    (htodo : todo.any Thread.crashed = false) :
    Pool.step ⟨s, dn ++ t :: todo⟩ dn.length = ⟨(t.step s).2, dn ++ (t.step s).1 :: todo⟩ := by
  unfold Pool.step
  rw [crashed_append, hdn, ht, htodo]
  simp [stepAt_append]

theorem Pool.run_cons (p : Pool) (i : Nat) (sch : List Nat) :
    p.run (i :: sch) = (p.step i).run sch := rfl

theorem Pool.run_split (p : Pool) (a b : List Nat) :
    p.run (a ++ b) = (p.run a).run b := by
  simp [Pool.run, List.foldl_append]

theorem run_alone (q : Prog) :
    ∀ (s : Counters) (cs : List Call) (dn todo : List Thread),
      dn.any Thread.crashed = false → todo.any Thread.crashed = false →
      Pool.run ⟨s, dn ++ ⟨q, cs⟩ :: todo⟩ (List.replicate (q.stepsAlone s) dn.length) =
        ⟨(q.exec s cs).counters,
         dn ++ ⟨.ret (q.exec s cs).exit, (q.exec s cs).calls⟩ :: todo⟩ := by
  induction q with
  | ret e => intro s cs dn todo _ _; rfl
  | panic =>
    intro s cs dn todo hdn htodo
    simp only [Prog.stepsAlone, List.replicate, Pool.run_cons]
    rw [Pool.step_append (t := ⟨.panic, cs⟩) hdn rfl htodo]
    rfl
  | call c k ih =>
    intro s cs dn todo hdn htodo
    simp only [Prog.stepsAlone, List.replicate, Pool.run_cons]
    rw [Pool.step_append (t := ⟨.call c k, cs⟩) hdn rfl htodo]
    exact ih s (cs ++ [c]) dn todo hdn htodo
  | loadBug k ih =>
    intro s cs dn todo hdn htodo
    simp only [Prog.stepsAlone, List.replicate, Pool.run_cons]
    rw [Pool.step_append (t := ⟨.loadBug k, cs⟩) hdn rfl htodo]
    exact ih s.TicketCountBugReport s cs dn todo hdn htodo
  | storeBug v k ih =>
    intro s cs dn todo hdn htodo
    simp only [Prog.stepsAlone, List.replicate, Pool.run_cons]
    rw [Pool.step_append (t := ⟨.storeBug v k, cs⟩) hdn rfl htodo]
    exact ih { s with TicketCountBugReport := v } cs dn todo hdn htodo
  | loadFeature k ih =>
    intro s cs dn todo hdn htodo
    simp only [Prog.stepsAlone, List.replicate, Pool.run_cons]
    rw [Pool.step_append (t := ⟨.loadFeature k, cs⟩) hdn rfl htodo]
    exact ih s.TicketCountFeatureRequest s cs dn todo hdn htodo
  | storeFeature v k ih =>
    intro s cs dn todo hdn htodo
    simp only [Prog.stepsAlone, List.replicate, Pool.run_cons]
    rw [Pool.step_append (t := ⟨.storeFeature v k, cs⟩) hdn rfl htodo]
    exact ih { s with TicketCountFeatureRequest := v } cs dn todo hdn htodo

/-! ## Serial handling inside the scheduler -/

theorem not_crashed_of_exec_returned {q : Prog} {s : Counters} {cs : List Call}
    (h : (q.exec s cs).exit = .returned) : Thread.crashed ⟨q, cs⟩ = false := by
  cases q with
  | ret e =>
    have he : e = .returned := h
    subst he
    rfl
  | _ => rfl

theorem serial_run (evs : List (Session × Interaction)) :
    ∀ (s : Counters) (dn : List Thread), dn.any Thread.crashed = false →
      (∀ ev ∈ evs, ∀ t : Counters,
        ((interactionHandler ev.1 ev.2).exec t []).exit = .returned) →
      Pool.run ⟨s, dn ++ evs.map fun ev => ⟨interactionHandler ev.1 ev.2, []⟩⟩
          (serialSchedule s dn.length (evs.map fun ev => interactionHandler ev.1 ev.2)) =
        ⟨finalCounters s (run s evs), dn ++ (run s evs).map Thread.ofResult⟩ := by
  induction evs with
  | nil =>
    intro s dn _ _
    simp [serialSchedule, Pool.run, run, finalCounters]
  | cons ev rest ih =>
    intro s dn hdn hret
    have hx := hret ev (List.mem_cons_self _ _) s
    have hrest : ∀ e ∈ rest, ∀ t : Counters,
        ((interactionHandler e.1 e.2).exec t []).exit = .returned :=
      fun e he => hret e (List.mem_cons_of_mem _ he)
    have htodo : (rest.map fun e => (⟨interactionHandler e.1 e.2, []⟩ : Thread)).any
        Thread.crashed = false := by
      rw [List.any_eq_false]
      intro t ht
      obtain ⟨e, he, rfl⟩ := List.mem_map.1 ht
      simpa using not_crashed_of_exec_returned (hrest e he s)
    simp only [List.map_cons, serialSchedule, Pool.run_split]
    rw [run_alone _ s [] dn _ hdn htodo, run_cons_returned hx, finalCounters_cons]
    have hdn2 : (dn ++ [Thread.ofResult ((interactionHandler ev.1 ev.2).exec s [])]).any
        Thread.crashed = false := by
      simp [List.any_append, hdn, Thread.ofResult, Thread.crashed, hx]
    have h := ih ((interactionHandler ev.1 ev.2).exec s []).counters
      (dn ++ [Thread.ofResult ((interactionHandler ev.1 ev.2).exec s [])]) hdn2 hrest
    simp only [List.length_append, List.length_singleton, List.append_assoc,
      List.singleton_append] at h
    simpa [Thread.ofResult] using h

theorem successfulOpen_returns {ev : Session × Interaction}
    (h : successfulOpen "bug" ev = true ∨ successfulOpen "feature" ev = true) (t : Counters) :
    ((interactionHandler ev.1 ev.2).exec t []).exit = .returned := by
  rcases h with h | h
  · exact (step_bug h).1
  · exact (step_feature h).1

/-! ## The open transition as one shape, and what each handler leaves alone -/

theorem handleBugCommand_shape (d : Session) (i : Interaction) :
    handleBugCommand d i = openTicket "VICE-BUG" "bug report" d i := by
  unfold handleBugCommand openTicket
  simp only [openTitle_bug, openReply_bug, openLabel_bug]

theorem handleFeatureCommand_shape (d : Session) (i : Interaction) :
    handleFeatureCommand d i = (openTicket "VICE-FEAT" "feature request" d i).swap := by
  unfold handleFeatureCommand openTicket
  simp only [openTitle_feature, openReply_feature, openLabel_feature, poster_first]
  repeat' split
  all_goals simp_all [Prog.swap]

theorem frame_feature (d : Session) (i : Interaction) :
    (handleFeatureCommand d i).neverStoresBug := by
  unfold handleFeatureCommand
  simp only [poster_first]
  repeat' split
  all_goals simp [Prog.neverStoresBug]

theorem frame_bug (d : Session) (i : Interaction) :
    (handleBugCommand d i).neverStoresFeature := by
  unfold handleBugCommand
  simp only [poster_first]
  repeat' split
  all_goals simp [Prog.neverStoresFeature]

theorem neverStoresBug_step (q : Prog) (s : Counters) (h : q.neverStoresBug) :
    (q.step s).2.1.TicketCountBugReport = s.TicketCountBugReport ∧
      (q.step s).1.neverStoresBug := by
  cases q with
  | storeBug v k => exact absurd h (by simp [Prog.neverStoresBug])
  | ret e => exact ⟨rfl, h⟩
  | panic => exact ⟨rfl, trivial⟩
  | call c k => exact ⟨rfl, h⟩
  | loadBug k => exact ⟨rfl, h _⟩
  | loadFeature k => exact ⟨rfl, h _⟩
  | storeFeature v k => exact ⟨rfl, h⟩

theorem neverStoresFeature_step (q : Prog) (s : Counters) (h : q.neverStoresFeature) :
    (q.step s).2.1.TicketCountFeatureRequest = s.TicketCountFeatureRequest ∧
      (q.step s).1.neverStoresFeature := by
  cases q with
  | storeFeature v k => exact absurd h (by simp [Prog.neverStoresFeature])
  | ret e => exact ⟨rfl, h⟩
  | panic => exact ⟨rfl, trivial⟩
  | call c k => exact ⟨rfl, h⟩
  | loadBug k => exact ⟨rfl, h _⟩
  | loadFeature k => exact ⟨rfl, h _⟩
  | storeBug v k => exact ⟨rfl, h⟩

theorem neverStoresBug_exec (q : Prog) :
    ∀ (s : Counters) (cs : List Call), q.neverStoresBug →
      (q.exec s cs).counters.TicketCountBugReport = s.TicketCountBugReport := by
  induction q with
  | storeBug v k _ => intro s cs h; exact absurd h (by simp [Prog.neverStoresBug])
  | ret e => intro s cs _; rfl
  | panic => intro s cs _; rfl
  | call c k ih => intro s cs h; exact ih s _ h
  | loadBug k ih => intro s cs h; exact ih _ s cs (h _)
  | loadFeature k ih => intro s cs h; exact ih _ s cs (h _)
  | storeFeature v k ih => intro s cs h; exact ih _ cs h

theorem neverStoresFeature_exec (q : Prog) :
    ∀ (s : Counters) (cs : List Call), q.neverStoresFeature →
      (q.exec s cs).counters.TicketCountFeatureRequest = s.TicketCountFeatureRequest := by
  induction q with
  | storeFeature v k _ => intro s cs h; exact absurd h (by simp [Prog.neverStoresFeature])
  | ret e => intro s cs _; rfl
  | panic => intro s cs _; rfl
  | call c k ih => intro s cs h; exact ih s _ h
  | loadBug k ih => intro s cs h; exact ih _ s cs (h _)
  | loadFeature k ih => intro s cs h; exact ih _ s cs (h _)
  | storeBug v k ih => intro s cs h; exact ih _ cs h

theorem no_panic_bug (d : Session) (i : Interaction) (h : i.Options ≠ []) :
    (handleBugCommand d i).neverPanics := by
  obtain ⟨x, hx⟩ := index_zero_of_ne_nil h
  unfold handleBugCommand
  simp only [poster_first, hx]
  repeat' split
  all_goals simp [Prog.neverPanics]

theorem no_panic_feature (d : Session) (i : Interaction) (h : i.Options ≠ []) :
    (handleFeatureCommand d i).neverPanics := by
  obtain ⟨x, hx⟩ := index_zero_of_ne_nil h
  unfold handleFeatureCommand
  simp only [poster_first, hx]
  repeat' split
  all_goals simp [Prog.neverPanics]

theorem neverPanics_step (q : Prog) (s : Counters) (h : q.neverPanics) :
    (q.step s).1.neverPanics := by
  cases q with
  | panic => exact absurd h (by simp [Prog.neverPanics])
  | ret e => exact h
  | call c k => exact h
  | loadBug k => exact h _
  | loadFeature k => exact h _
  | storeBug v k => exact h
  | storeFeature v k => exact h

/-! ## Runs that exhaust the counter -/

theorem run_append (xs : List (Session × Interaction)) :
    ∀ (s : Counters) (ys : List (Session × Interaction)),
      (∀ ev ∈ xs, ∀ t : Counters,
        ((interactionHandler ev.1 ev.2).exec t []).exit = .returned) →
      run s (xs ++ ys) = run s xs ++ run (finalCounters s (run s xs)) ys := by
  induction xs with
  | nil => intro s ys _; simp [run, finalCounters]
  | cons ev rest ih =>
    intro s ys h
    have hx := h ev (List.mem_cons_self _ _) s
    rw [List.cons_append, run_cons_returned hx, run_cons_returned hx, finalCounters_cons,
      ih _ ys (fun e he => h e (List.mem_cons_of_mem _ he))]
    rfl

theorem run_concat (xs : List (Session × Interaction)) (s : Counters)
    (ev : Session × Interaction)
    (hret : ∀ e ∈ xs, ∀ t : Counters,
      ((interactionHandler e.1 e.2).exec t []).exit = .returned)
    (hx : ∀ t : Counters, ((interactionHandler ev.1 ev.2).exec t []).exit = .returned) :
    (run s (xs ++ [ev])).getLast? =
      some ((interactionHandler ev.1 ev.2).exec (finalCounters s (run s xs)) []) := by
  rw [run_append xs s [ev] hret, run_cons_returned (hx _)]
  have h : run ((interactionHandler ev.1 ev.2).exec (finalCounters s (run s xs)) []).counters
      [] = [] := rfl
  rw [h, List.getLast?_concat]

theorem run_past_maxInt (xs : List (Session × Interaction)) (ev : Session × Interaction)
    (hok : ∀ e ∈ xs, successfulOpen "bug" e = true) (hev : successfulOpen "bug" ev = true)
    (hlen : (xs.length : Int) = maxInt) :
    finalCounters Counters.init (run Counters.init (xs ++ [ev])) = ⟨minInt, 0⟩ ∧
    (run Counters.init (xs ++ [ev])).getLast?.map Result.renames =
      some [bugTitle minInt (nameArg ev.2)] := by
  have hret : ∀ e ∈ xs, ∀ t : Counters,
      ((interactionHandler e.1 e.2).exec t []).exit = .returned :=
    fun e he t => successfulOpen_returns (Or.inl (hok e he)) t
  have hb := (run_bug xs Counters.init 0 rfl hok (by rw [hlen]; decide)).2
  have hc := run_concat xs Counters.init ev hret
    (fun t => successfulOpen_returns (Or.inl hev) t)
  obtain ⟨_, hcnt, hren, _⟩ := step_bug (s := finalCounters Counters.init
    (run Counters.init xs)) hev
  have hw : wrapInt ((finalCounters Counters.init
      (run Counters.init xs)).TicketCountBugReport + 1) = minInt := by
    rw [hb, hlen]
    decide
  rw [hw] at hcnt hren
  constructor
  · unfold finalCounters
    rw [hc]
    simp only []
    rw [hcnt, hb]
    rfl
  · rw [hc, Option.map_some', hren]

theorem manyBugs_ok : ∀ ev ∈ manyBugs, successfulOpen "bug" ev = true := by
  intro ev hev
  rcases List.mem_append.1 hev with h | h
  · rw [List.eq_of_mem_replicate h]
    decide
  · rw [List.mem_singleton.1 h]
    decide

theorem manyBugs_length : manyBugs.length = 2 ^ 63 := by
  rw [manyBugs, List.length_append, List.length_replicate]
  decide

theorem manyBugs_final :
    finalCounters Counters.init (run Counters.init manyBugs) = ⟨minInt, 0⟩ ∧
    (run Counters.init manyBugs).getLast?.map Result.renames =
      some ["[VICE-BUG--9223372036854775808] Crash on load"] := by
  have h := run_past_maxInt (List.replicate 9223372036854775807 (aliceThread, crashBug))
    (aliceThread, crashBug)
    (fun e he => by rw [List.eq_of_mem_replicate he]; decide) (by decide)
    (by rw [List.length_replicate]; decide)
  have ht : bugTitle minInt (nameArg (aliceThread, crashBug).2) =
      "[VICE-BUG--9223372036854775808] Crash on load" := by decide
  rw [ht] at h
  exact h

/-! ## Claims -/

/-- C1 as it stands fails when handlers overlap: with two successful bug opens
from the initial state, the first handler waits for its channel request while
the second one runs, and the first call ends with number 2 in its title, the
second call with number 1. -/
theorem bug_numbers_out_of_call_order :
    (∀ ev ∈ twoBugs, successfulOpen "bug" ev = true) ∧
    ((Pool.spawn Counters.init twoBugs).run waitingFirst).threads.map Thread.renames =
      [["[VICE-BUG-2] Crash on load"], ["[VICE-BUG-1] Memory leak"]] ∧
    ((Pool.spawn Counters.init twoBugs).run waitingFirst).threads.map Thread.returned =
      [true, true] ∧
    ((Pool.spawn Counters.init twoBugs).run waitingFirst).counters.TicketCountBugReport = 2 :=
  ⟨by decide, by decide, by decide, by decide⟩

/-- C1 (amended): from the initial state, for every sequence of successful
bug-open commands whose length does not exceed the largest Go `int`, when the
handlers run one after another (each from start to finish before the next one
takes a step), the process ends with every handler returned, the `k`-th call
having set the title and sent the reply with number `k`, and the bug counter at
`N`; the numbers are exactly `1, 2, ..., N` in call order. -/
theorem bug_numbers_in_call_order (evs : List (Session × Interaction))
    (hok : ∀ ev ∈ evs, successfulOpen "bug" ev = true)
    (hbound : (evs.length : Int) ≤ maxInt) :
    (Pool.spawn Counters.init evs).run
        (serialSchedule Counters.init 0 (evs.map fun ev => interactionHandler ev.1 ev.2)) =
      ⟨finalCounters Counters.init (run Counters.init evs),
       (run Counters.init evs).map Thread.ofResult⟩ ∧
    (run Counters.init evs).map bugShown = (evs.enumFrom 1).map bugExpected ∧
    (run Counters.init evs).map (fun r => r.counters.TicketCountBugReport) =
      (List.range' 1 evs.length).map (fun (k : Nat) => (k : Int)) ∧
    (finalCounters Counters.init (run Counters.init evs)).TicketCountBugReport =
      (evs.length : Int) := by
  have h := run_bug evs Counters.init 0 rfl hok (by simpa using hbound)
  have hs := serial_run evs Counters.init [] rfl
    (fun ev he t => successfulOpen_returns (Or.inl (hok ev he)) t)
  refine ⟨by simpa [Pool.spawn] using hs, h.1, ?_, ?_⟩
  · have h2 := congrArg (List.map (fun t : List String × List String × Int => t.2.2)) h.1
    simp only [List.map_map] at h2
    have h3 : (fun t : List String × List String × Int => t.2.2) ∘ bugShown =
        fun r => r.counters.TicketCountBugReport := rfl
    have h4 : (fun t : List String × List String × Int => t.2.2) ∘ bugExpected =
        (fun k : Nat => (k : Int)) ∘ Prod.fst := rfl
    rw [h3, h4, ← List.map_map, List.enumFrom_map_fst] at h2
    simpa using h2
  · rw [h.2]
    simp

/-- Witness for C1 (amended): two bug opens handled one after the other. -/
theorem bug_numbers_in_call_order_witness :
    ((Pool.spawn Counters.init twoBugs).run
        (serialSchedule Counters.init 0
          (twoBugs.map fun ev => interactionHandler ev.1 ev.2))).threads.map Thread.renames =
      [["[VICE-BUG-1] Crash on load"], ["[VICE-BUG-2] Memory leak"]] ∧
    (run Counters.init twoBugs).map (fun r => r.counters.TicketCountBugReport) = [1, 2] ∧
    (finalCounters Counters.init (run Counters.init twoBugs)).TicketCountBugReport = 2 := by
  have h := bug_numbers_in_call_order twoBugs (by decide) (by decide)
  exact ⟨by rw [h.1]; decide, h.2.2.1, h.2.2.2⟩

/-- C2 as it stands fails in two ways.  When handlers overlap, the bug opens
are not numbered in their call order: with a bug open, a feature open and a
second bug open from the initial state, the first handler waits for its
channel request while the two others run, and the first bug open ends with
number 2, the second with number 1.  And past the Go `int` range the numbering
breaks even when the handlers run one after another: the last of `2 ^ 63` bug
opens carries the smallest `int`, not `2 ^ 63`. -/
theorem bug_numbers_out_of_order_in_interleaving :
    (∀ ev ∈ threeOpens, successfulOpen "bug" ev = true ∨ successfulOpen "feature" ev = true) ∧
    ((Pool.spawn Counters.init threeOpens).run waitingFirstOfThree).threads.map
        Thread.renames =
      [["[VICE-BUG-2] Crash on load"], ["[VICE-FEAT-1] Dark mode"],
       ["[VICE-BUG-1] Memory leak"]] ∧
    ((Pool.spawn Counters.init threeOpens).run waitingFirstOfThree).threads.map
        Thread.returned = [true, true, true] ∧
    (∀ ev ∈ manyBugs, successfulOpen "bug" ev = true) ∧
    manyBugs.length = 2 ^ 63 ∧
    finalCounters Counters.init (run Counters.init manyBugs) = ⟨minInt, 0⟩ ∧
    (run Counters.init manyBugs).getLast?.map Result.renames =
      some ["[VICE-BUG--9223372036854775808] Crash on load"] :=
  ⟨by decide, by decide, by decide, manyBugs_ok, manyBugs_length, manyBugs_final.1,
    manyBugs_final.2⟩

/-- C2 (amended): the feature handler never stores to the bug counter and the
bug handler never stores to the feature counter, whatever the other handlers do
meanwhile, and the complete and notdoing handlers touch neither counter; in
every interleaving of successful bug opens and feature opens whose handlers run
one after another, from any state, what the bug opens show is what they show
when handled alone in the same order, and likewise for the feature opens; and
from the initial state, each category within the Go `int` range, the bug opens
carry the numbers `1..b` and the feature opens the numbers `1..f`, each in its
own call order. -/
theorem counters_independent :
    (∀ (d : Session) (i : Interaction),
      (handleFeatureCommand d i).neverStoresBug ∧
      (handleBugCommand d i).neverStoresFeature ∧
      (∀ s cs, ((handleFeatureCommand d i).exec s cs).counters.TicketCountBugReport =
        s.TicketCountBugReport) ∧
      (∀ s cs, ((handleBugCommand d i).exec s cs).counters.TicketCountFeatureRequest =
        s.TicketCountFeatureRequest) ∧
      (∀ s, (handleCompleteCommand s d i).counters = s) ∧
      (∀ s, (handleNotDoingCommand s d i).counters = s)) ∧
    (∀ (q : Prog) (s : Counters),
      (q.neverStoresBug →
        (q.step s).2.1.TicketCountBugReport = s.TicketCountBugReport ∧
          (q.step s).1.neverStoresBug) ∧
      (q.neverStoresFeature →
        (q.step s).2.1.TicketCountFeatureRequest = s.TicketCountFeatureRequest ∧
          (q.step s).1.neverStoresFeature)) ∧
    (∀ (evs : List (Session × Interaction)) (s : Counters),
      (∀ ev ∈ evs, successfulOpen "bug" ev = true ∨ successfulOpen "feature" ev = true) →
      (Pool.spawn s evs).run
          (serialSchedule s 0 (evs.map fun ev => interactionHandler ev.1 ev.2)) =
        ⟨finalCounters s (run s evs), (run s evs).map Thread.ofResult⟩ ∧
      (resultsOf "bug" evs (run s evs)).map bugShown =
        (run s (eventsOf "bug" evs)).map bugShown ∧
      (resultsOf "feature" evs (run s evs)).map featureShown =
        (run s (eventsOf "feature" evs)).map featureShown) ∧
    (∀ evs : List (Session × Interaction),
      (∀ ev ∈ evs, successfulOpen "bug" ev = true ∨ successfulOpen "feature" ev = true) →
      ((eventsOf "bug" evs).length : Int) ≤ maxInt →
      ((eventsOf "feature" evs).length : Int) ≤ maxInt →
      (run Counters.init evs).length = evs.length ∧
      (resultsOf "bug" evs (run Counters.init evs)).map bugShown =
        ((eventsOf "bug" evs).enumFrom 1).map bugExpected ∧
      (resultsOf "feature" evs (run Counters.init evs)).map featureShown =
        ((eventsOf "feature" evs).enumFrom 1).map featureExpected ∧
      finalCounters Counters.init (run Counters.init evs) =
        ⟨((eventsOf "bug" evs).length : Int), ((eventsOf "feature" evs).length : Int)⟩) := by
  refine ⟨fun d i => ⟨frame_feature d i, frame_bug d i,
      fun s cs => neverStoresBug_exec _ s cs (frame_feature d i),
      fun s cs => neverStoresFeature_exec _ s cs (frame_bug d i),
      fun s => frame_complete s d i, fun s => frame_notDoing s d i⟩,
    fun q s => ⟨neverStoresBug_step q s, neverStoresFeature_step q s⟩, ?_, ?_⟩
  · intro evs s hok
    have hs := serial_run evs s [] rfl (fun ev he t => successfulOpen_returns (hok ev he) t)
    exact ⟨by simpa [Pool.spawn] using hs, run_project_bug evs s s rfl hok,
      run_project_feature evs s s rfl hok⟩
  · intro evs hok hb hf
    have h := run_opens evs Counters.init 0 0 rfl rfl hok (by simpa using hb)
      (by simpa using hf)
    exact ⟨h.1, by simpa using h.2.1, by simpa using h.2.2.1, by simpa using h.2.2.2⟩

/-- Witness for C2 (amended): bug, feature, bug, feature handled one after the
other from the initial state. -/
theorem counters_independent_witness :
    ((Pool.spawn Counters.init mixedOpens).run
        (serialSchedule Counters.init 0
          (mixedOpens.map fun ev => interactionHandler ev.1 ev.2))).threads.map
        Thread.renames =
      [["[VICE-BUG-1] Crash on load"], ["[VICE-FEAT-1] Dark mode"],
       ["[VICE-BUG-2] Memory leak"], ["[VICE-FEAT-2] Zoom"]] ∧
    finalCounters Counters.init (run Counters.init mixedOpens) = ⟨2, 2⟩ := by
  have h1 := counters_independent.2.2.1 mixedOpens Counters.init (by decide)
  have h2 := counters_independent.2.2.2 mixedOpens (by decide) (by decide) (by decide)
  exact ⟨by rw [h1.1]; decide, h2.2.2.2⟩

/-- C3, the code at the failing input: on a text channel whose thread join is
refused, `handleBugCommand` and `handleFeatureCommand` print a console line and
return without any reply, although the channel is not a public thread; at the
same input `handleCompleteCommand` and `handleNotDoingCommand` send the fixed
reply. -/
theorem bug_outside_thread_join_refused :
    joinRefusedSession.Channel = .ok ⟨"chan-1", 0, "general"⟩ ∧
    (0 : ChannelType) ≠ ChannelTypeGuildPublicThread ∧
    (handleBugCommand joinRefusedSession crashBug).exec Counters.init [] =
      ⟨Counters.init,
       [.Channel "chan-1", .ThreadMemberAdd "chan-1" "bot",
        .Println "Failed to add bot to thread: HTTP 400 Bad Request"], .returned⟩ ∧
    (handleFeatureCommand joinRefusedSession darkFeature).exec Counters.init [] =
      ⟨Counters.init,
       [.Channel "chan-1", .ThreadMemberAdd "chan-1" "bot",
        .Println "Failed to add bot to thread: HTTP 400 Bad Request"], .returned⟩ ∧
    ((handleBugCommand joinRefusedSession crashBug).exec Counters.init []).replies = [] ∧
    ((handleFeatureCommand joinRefusedSession darkFeature).exec Counters.init []).replies = [] ∧
    (handleCompleteCommand Counters.init joinRefusedSession completeCmd).replies =
      ["This command can only be used in a thread."] ∧
    (handleNotDoingCommand Counters.init joinRefusedSession notDoingCmd).replies =
      ["This command can only be used in a thread."] :=
  ⟨rfl, by decide, by decide, by decide, by decide, by decide, by decide, by decide⟩

/-- C4 as it stands fails in two ways.  When another bug open increments the
counter while the handler waits for its rename request, the reply carries
another number than the title: from a fresh counter the first of two bug opens
sets the title with number 1 and sends the reply with number 2.  And at the
largest counter value the increment wraps to the smallest Go `int`, so the new
counter is not `c + 1`. -/
theorem bug_title_and_reply_disagree :
    (∀ ev ∈ twoBugs, successfulOpen "bug" ev = true) ∧
    ((Pool.spawn Counters.init twoBugs).run waitingOnRename).threads.map Thread.renames =
      [["[VICE-BUG-1] Crash on load"], ["[VICE-BUG-2] Memory leak"]] ∧
    ((Pool.spawn Counters.init twoBugs).run waitingOnRename).threads.map Thread.replies =
      [[bugReply "@alice" 2], [bugReply "unknown user" 2]] ∧
    ((Pool.spawn Counters.init twoBugs).run waitingOnRename).threads.map Thread.returned =
      [true, true] ∧
    aliceThread.succeeds = true ∧
    ((handleBugCommand aliceThread crashBug).exec ⟨maxInt, 0⟩ []).counters.TicketCountBugReport
      = minInt ∧
    ((handleBugCommand aliceThread crashBug).exec ⟨maxInt, 0⟩ []).counters.TicketCountBugReport
      ≠ maxInt + 1 ∧
    ((handleBugCommand aliceThread crashBug).exec ⟨maxInt, 0⟩ []).renames =
      ["[VICE-BUG--9223372036854775808] Crash on load"] :=
  ⟨by decide, by decide, by rfl, by decide, by decide, by decide, by decide, by decide⟩

/-- C4 (amended): for every name, poster and bug counter `c`, a successful bug
open on a public thread whose handler runs from start to finish with no other
handler taking a step in between (whatever other handlers are waiting)
increments the bug counter with Go `int` arithmetic to a value `N`, with
`N = c + 1` whenever `c` is a Go `int` below the largest value; it renames the
thread to exactly `"[VICE-BUG-" ++ decimal N ++ "] " ++ name` and sends the bug
reply for the poster and that same `N`, in which both the poster mention and
the decimal of `N` occur; it returns normally. -/
theorem bug_open_effect (s : Counters) (d : Session) (i : Interaction) (ch : Channel)
    (ms : List Message) (name : String) (rest : List String)
    (hopt : i.Options = name :: rest) (hch : d.Channel = .ok ch)
    (hty : ch.Type_ = ChannelTypeGuildPublicThread) (hjoin : d.ThreadMemberAdd = none)
    (hms : d.ChannelMessages = .ok ms) (hedit : d.ChannelEdit = none)
    (hresp : d.InteractionRespond = none) :
    (∀ dn todo : List Thread,
      dn.any Thread.crashed = false → todo.any Thread.crashed = false →
      Pool.run ⟨s, dn ++ ⟨handleBugCommand d i, []⟩ :: todo⟩
          (List.replicate ((handleBugCommand d i).stepsAlone s) dn.length) =
        ⟨((handleBugCommand d i).exec s []).counters,
         dn ++ ⟨.ret ((handleBugCommand d i).exec s []).exit,
                ((handleBugCommand d i).exec s []).calls⟩ :: todo⟩) ∧
    ((handleBugCommand d i).exec s []).counters =
      { s with TicketCountBugReport := wrapInt (s.TicketCountBugReport + 1) } ∧
    (minInt ≤ s.TicketCountBugReport → s.TicketCountBugReport < maxInt →
      ((handleBugCommand d i).exec s []).counters.TicketCountBugReport =
        s.TicketCountBugReport + 1) ∧
    ((handleBugCommand d i).exec s []).renames =
      ["[VICE-BUG-" ++ fmtD ((handleBugCommand d i).exec s []).counters.TicketCountBugReport
        ++ "] " ++ name] ∧
    Call.ChannelEdit ch.ID
        ("[VICE-BUG-" ++ fmtD ((handleBugCommand d i).exec s []).counters.TicketCountBugReport
          ++ "] " ++ name)
      ∈ ((handleBugCommand d i).exec s []).calls ∧
    ((handleBugCommand d i).exec s []).replies =
      [bugReply (firstPoster ms)
        ((handleBugCommand d i).exec s []).counters.TicketCountBugReport] ∧
    occursIn (firstPoster ms)
      (bugReply (firstPoster ms)
        ((handleBugCommand d i).exec s []).counters.TicketCountBugReport) ∧
    occursIn (fmtD ((handleBugCommand d i).exec s []).counters.TicketCountBugReport)
      (bugReply (firstPoster ms)
        ((handleBugCommand d i).exec s []).counters.TicketCountBugReport) ∧
    ((handleBugCommand d i).exec s []).exit = .returned := by
  refine ⟨fun dn todo hdn htodo => run_alone _ s [] dn todo hdn htodo, ?_⟩
  rw [handleBugCommand_ok hopt hch hty hjoin hms hedit hresp, bugOpenSteps_exec]
  refine ⟨rfl, fun hlo hhi => wrapInt_succ hlo hhi, ?_, ?_, ?_, (bugReply_mentions _ _).1,
    (bugReply_mentions _ _).2, rfl⟩
  · simp [Result.renames, bugTitle]
  · simp [bugTitle]
  · simp [Result.replies]

/-- Witness for C4 (amended): fresh counters, name `Crash on load`, poster
`@alice`, the handler running alone while another one waits. -/
theorem bug_open_effect_witness :
    ((Pool.spawn Counters.init twoBugs).run (List.replicate 10 0)).threads.map
        Thread.renames = [["[VICE-BUG-1] Crash on load"], []] ∧
    ((handleBugCommand aliceThread crashBug).exec Counters.init []).counters = ⟨1, 0⟩ ∧
    ((handleBugCommand aliceThread crashBug).exec Counters.init []).counters.TicketCountBugReport
      = Counters.init.TicketCountBugReport + 1 ∧
    ((handleBugCommand aliceThread crashBug).exec Counters.init []).renames =
      ["[VICE-BUG-1] Crash on load"] ∧
    occursIn "@alice" (bugReply "@alice" 1) ∧ occursIn "1" (bugReply "@alice" 1) ∧
    ((handleBugCommand aliceThread crashBug).exec Counters.init []).replies =
      [bugReply "@alice" 1] := by
  have h := bug_open_effect Counters.init aliceThread crashBug
    ⟨"chan-1", ChannelTypeGuildPublicThread, "help wanted"⟩ [msgBy "@alice"] "Crash on load" []
    rfl rfl rfl rfl rfl rfl rfl
  exact ⟨by decide, h.2.1, h.2.2.1 (by decide) (by decide), h.2.2.2.1, h.2.2.2.2.2.2.1,
    h.2.2.2.2.2.2.2.1, h.2.2.2.2.2.1⟩

/-- C5 as it stands fails in two ways.  When another feature open increments
the counter while the handler waits for its rename request, the reply carries
another number than the title: from a fresh counter the first of two feature
opens sets the title with number 1 and sends the reply with number 2.  And at
the largest counter value the increment wraps to the smallest Go `int`, so the
new counter is not `c + 1`. -/
theorem feature_title_and_reply_disagree :
    (∀ ev ∈ twoFeatures, successfulOpen "feature" ev = true) ∧
    ((Pool.spawn Counters.init twoFeatures).run waitingOnRename).threads.map Thread.renames =
      [["[VICE-FEAT-1] Dark mode"], ["[VICE-FEAT-2] Zoom"]] ∧
    ((Pool.spawn Counters.init twoFeatures).run waitingOnRename).threads.map Thread.replies =
      [[featureReply "@bob" 2], [featureReply "unknown user" 2]] ∧
    ((Pool.spawn Counters.init twoFeatures).run waitingOnRename).threads.map Thread.returned =
      [true, true] ∧
    aliceThread.succeeds = true ∧
    ((handleFeatureCommand aliceThread darkFeature).exec ⟨0, maxInt⟩
      []).counters.TicketCountFeatureRequest = minInt ∧
    ((handleFeatureCommand aliceThread darkFeature).exec ⟨0, maxInt⟩
      []).counters.TicketCountFeatureRequest ≠ maxInt + 1 ∧
    ((handleFeatureCommand aliceThread darkFeature).exec ⟨0, maxInt⟩ []).renames =
      ["[VICE-FEAT--9223372036854775808] Dark mode"] :=
  ⟨by decide, by decide, by rfl, by decide, by decide, by decide, by decide, by decide⟩

/-- C5 (amended): the feature handler is the bug handler with the two counters
exchanged, `VICE-FEAT` for `VICE-BUG` and `feature request` for `bug report`
(both are instances of one shape, as programs, on every input); and for every
name, poster and feature counter `c`, a successful feature open on a public
thread whose handler runs from start to finish with no other handler taking a
step in between increments the feature counter with Go `int` arithmetic to a
value `N`, with `N = c + 1` whenever `c` is a Go `int` below the largest value;
it renames the thread to exactly `"[VICE-FEAT-" ++ decimal N ++ "] " ++ name`
and sends the feature reply for the poster and that same `N`, in which both the
poster mention and the decimal of `N` occur. -/
theorem feature_open_effect (s : Counters) (d : Session) (i : Interaction) (ch : Channel)
    (ms : List Message) (name : String) (rest : List String)
    (hopt : i.Options = name :: rest) (hch : d.Channel = .ok ch)
    (hty : ch.Type_ = ChannelTypeGuildPublicThread) (hjoin : d.ThreadMemberAdd = none)
    (hms : d.ChannelMessages = .ok ms) (hedit : d.ChannelEdit = none)
    (hresp : d.InteractionRespond = none) :
    (∀ (d0 : Session) (i0 : Interaction),
      handleBugCommand d0 i0 = openTicket "VICE-BUG" "bug report" d0 i0 ∧
      handleFeatureCommand d0 i0 = (openTicket "VICE-FEAT" "feature request" d0 i0).swap) ∧
    (∀ dn todo : List Thread,
      dn.any Thread.crashed = false → todo.any Thread.crashed = false →
      Pool.run ⟨s, dn ++ ⟨handleFeatureCommand d i, []⟩ :: todo⟩
          (List.replicate ((handleFeatureCommand d i).stepsAlone s) dn.length) =
        ⟨((handleFeatureCommand d i).exec s []).counters,
         dn ++ ⟨.ret ((handleFeatureCommand d i).exec s []).exit,
                ((handleFeatureCommand d i).exec s []).calls⟩ :: todo⟩) ∧
    ((handleFeatureCommand d i).exec s []).counters =
      { s with TicketCountFeatureRequest := wrapInt (s.TicketCountFeatureRequest + 1) } ∧
    (minInt ≤ s.TicketCountFeatureRequest → s.TicketCountFeatureRequest < maxInt →
      ((handleFeatureCommand d i).exec s []).counters.TicketCountFeatureRequest =
        s.TicketCountFeatureRequest + 1) ∧
    ((handleFeatureCommand d i).exec s []).renames =
      ["[VICE-FEAT-" ++
        fmtD ((handleFeatureCommand d i).exec s []).counters.TicketCountFeatureRequest
        ++ "] " ++ name] ∧
    Call.ChannelEdit ch.ID
        ("[VICE-FEAT-" ++
          fmtD ((handleFeatureCommand d i).exec s []).counters.TicketCountFeatureRequest
          ++ "] " ++ name)
      ∈ ((handleFeatureCommand d i).exec s []).calls ∧
    ((handleFeatureCommand d i).exec s []).replies =
      [featureReply (firstPoster ms)
        ((handleFeatureCommand d i).exec s []).counters.TicketCountFeatureRequest] ∧
    occursIn (firstPoster ms)
      (featureReply (firstPoster ms)
        ((handleFeatureCommand d i).exec s []).counters.TicketCountFeatureRequest) ∧
    occursIn (fmtD ((handleFeatureCommand d i).exec s []).counters.TicketCountFeatureRequest)
      (featureReply (firstPoster ms)
        ((handleFeatureCommand d i).exec s []).counters.TicketCountFeatureRequest) ∧
    ((handleFeatureCommand d i).exec s []).exit = .returned := by
  refine ⟨fun d0 i0 => ⟨handleBugCommand_shape d0 i0, handleFeatureCommand_shape d0 i0⟩,
    fun dn todo hdn htodo => run_alone _ s [] dn todo hdn htodo, ?_⟩
  rw [handleFeatureCommand_ok hopt hch hty hjoin hms hedit hresp, featureOpenSteps_exec]
  refine ⟨rfl, fun hlo hhi => wrapInt_succ hlo hhi, ?_, ?_, ?_, (featureReply_mentions _ _).1,
    (featureReply_mentions _ _).2, rfl⟩
  · simp [Result.renames, featureTitle]
  · simp [featureTitle]
  · simp [Result.replies]

/-- Witness for C5 (amended): bug counter 3, feature counter 1, name
`Dark mode`, poster `@alice`, the handler running alone. -/
theorem feature_open_effect_witness :
    ((handleFeatureCommand aliceThread darkFeature).exec ⟨3, 1⟩ []).counters = ⟨3, 2⟩ ∧
    ((handleFeatureCommand aliceThread darkFeature).exec ⟨3, 1⟩
      []).counters.TicketCountFeatureRequest = 1 + 1 ∧
    ((handleFeatureCommand aliceThread darkFeature).exec ⟨3, 1⟩ []).renames =
      ["[VICE-FEAT-2] Dark mode"] ∧
    ((handleFeatureCommand aliceThread darkFeature).exec ⟨3, 1⟩ []).replies =
      [featureReply "@alice" 2] := by
  have h := feature_open_effect ⟨3, 1⟩ aliceThread darkFeature
    ⟨"chan-1", ChannelTypeGuildPublicThread, "help wanted"⟩ [msgBy "@alice"] "Dark mode" []
    rfl rfl rfl rfl rfl rfl rfl
  exact ⟨h.2.2.1, h.2.2.2.1 (by decide) (by decide), h.2.2.2.2.1, h.2.2.2.2.2.2.1⟩

/-- C6: on a public thread with current title `t`, the complete command (all
platform calls succeeding) renames the thread to exactly `"✅ " ++ t`, whatever
`t` already holds, replies with the completion text for the poster, in which the
poster mention occurs, and changes no counter. -/
theorem complete_effect (s : Counters) (d : Session) (i : Interaction) (ch : Channel)
    (ms : List Message) (hch : d.Channel = .ok ch)
    (hty : ch.Type_ = ChannelTypeGuildPublicThread)
    (hms : d.ChannelMessages = .ok ms) (hedit : d.ChannelEdit = none)
    (hresp : d.InteractionRespond = none) :
    (handleCompleteCommand s d i).renames = ["✅ " ++ ch.Name] ∧
    Call.ChannelEdit ch.ID ("✅ " ++ ch.Name) ∈ (handleCompleteCommand s d i).calls ∧
    (handleCompleteCommand s d i).replies = [completeReply (lastPoster ms)] ∧
    occursIn (lastPoster ms) (completeReply (lastPoster ms)) ∧
    (handleCompleteCommand s d i).counters = s ∧
    (handleCompleteCommand s d i).exit = .returned := by
  rw [handleCompleteCommand_ok hch hty hms hedit hresp]
  refine ⟨?_, ?_, ?_, completeReply_mentions _, rfl, rfl⟩
  · simp [Result.renames, completeTitle]
  · simp [completeTitle]
  · simp [Result.replies]

/-- Witness for C6: the thread titled `[VICE-BUG-3] Crash on load`. -/
theorem complete_effect_witness :
    (handleCompleteCommand Counters.init
      (okSession ChannelTypeGuildPublicThread "[VICE-BUG-3] Crash on load" [msgBy "@alice"])
      (slash "complete" [])).renames = ["✅ [VICE-BUG-3] Crash on load"] ∧
    (handleCompleteCommand Counters.init
      (okSession ChannelTypeGuildPublicThread "[VICE-BUG-3] Crash on load" [msgBy "@alice"])
      (slash "complete" [])).replies =
      ["Good news, @alice! Your bug report or feature request has been marked as complete. Thank you for your patience! ✅"] := by
  have h := complete_effect Counters.init
    (okSession ChannelTypeGuildPublicThread "[VICE-BUG-3] Crash on load" [msgBy "@alice"])
    (slash "complete" [])
    ⟨"chan-1", ChannelTypeGuildPublicThread, "[VICE-BUG-3] Crash on load"⟩ [msgBy "@alice"]
    rfl rfl rfl rfl rfl
  exact ⟨h.1, h.2.2.1⟩

/-- C7: on a public thread with current title `t`, the notdoing command (all
platform calls succeeding) renames the thread to exactly `t ++ " ❌"`, whatever
`t` already holds, replies with the rejection text for the poster, in which the
poster mention occurs, and changes no counter. -/
theorem notDoing_effect (s : Counters) (d : Session) (i : Interaction) (ch : Channel)
    (ms : List Message) (hch : d.Channel = .ok ch)
    (hty : ch.Type_ = ChannelTypeGuildPublicThread)
    (hms : d.ChannelMessages = .ok ms) (hedit : d.ChannelEdit = none)
    (hresp : d.InteractionRespond = none) :
    (handleNotDoingCommand s d i).renames = [ch.Name ++ " ❌"] ∧
    Call.ChannelEdit ch.ID (ch.Name ++ " ❌") ∈ (handleNotDoingCommand s d i).calls ∧
    (handleNotDoingCommand s d i).replies = [notDoingReply (firstPoster ms)] ∧
    occursIn (firstPoster ms) (notDoingReply (firstPoster ms)) ∧
    (handleNotDoingCommand s d i).counters = s ∧
    (handleNotDoingCommand s d i).exit = .returned := by
  rw [handleNotDoingCommand_ok hch hty hms hedit hresp]
  refine ⟨?_, ?_, ?_, notDoingReply_mentions _, rfl, rfl⟩
  · simp [Result.renames, notDoingTitle]
  · simp [notDoingTitle]
  · simp [Result.replies]

/-- Witness for C7: the thread titled `[VICE-FEAT-2] Dark mode`. -/
theorem notDoing_effect_witness :
    (handleNotDoingCommand Counters.init
      (okSession ChannelTypeGuildPublicThread "[VICE-FEAT-2] Dark mode" [msgBy "@bob"])
      (slash "notdoing" [])).renames = ["[VICE-FEAT-2] Dark mode ❌"] ∧
    (handleNotDoingCommand Counters.init
      (okSession ChannelTypeGuildPublicThread "[VICE-FEAT-2] Dark mode" [msgBy "@bob"])
      (slash "notdoing" [])).replies =
      ["Unfortunately, @bob, your feature request will not be implemented at this time. We appreciate your suggestion and encourage you to keep submitting ideas in the future."] := by
  have h := notDoing_effect Counters.init
    (okSession ChannelTypeGuildPublicThread "[VICE-FEAT-2] Dark mode" [msgBy "@bob"])
    (slash "notdoing" [])
    ⟨"chan-1", ChannelTypeGuildPublicThread, "[VICE-FEAT-2] Dark mode"⟩ [msgBy "@bob"]
    rfl rfl rfl rfl rfl
  exact ⟨h.1, h.2.2.1⟩

/-- C8: the complete command is not idempotent.  When a second successful
complete runs on the thread whose title is the one the first complete wrote,
the thread is renamed to `"✅ ✅ " ++ t`, which differs from the title
`"✅ " ++ t` left by the first call. -/
theorem complete_twice (s : Counters) (d1 d2 : Session) (i1 i2 : Interaction)
    (ch1 ch2 : Channel) (ms1 ms2 : List Message)
    (hch1 : d1.Channel = .ok ch1) (hty1 : ch1.Type_ = ChannelTypeGuildPublicThread)
    (hms1 : d1.ChannelMessages = .ok ms1) (hedit1 : d1.ChannelEdit = none)
    (hresp1 : d1.InteractionRespond = none)
    (hch2 : d2.Channel = .ok ch2) (hty2 : ch2.Type_ = ChannelTypeGuildPublicThread)
    (hms2 : d2.ChannelMessages = .ok ms2) (hedit2 : d2.ChannelEdit = none)
    (hresp2 : d2.InteractionRespond = none)
    (hread : (handleCompleteCommand s d1 i1).renames = [ch2.Name]) :
    (handleCompleteCommand s d1 i1).renames = ["✅ " ++ ch1.Name] ∧
    (handleCompleteCommand (handleCompleteCommand s d1 i1).counters d2 i2).renames =
      ["✅ ✅ " ++ ch1.Name] ∧
    "✅ ✅ " ++ ch1.Name ≠ "✅ " ++ ch1.Name := by
  have h1 : (handleCompleteCommand s d1 i1).renames = [completeTitle ch1.Name] := by
    rw [handleCompleteCommand_ok hch1 hty1 hms1 hedit1 hresp1]
    simp [Result.renames]
  have hname : ch2.Name = completeTitle ch1.Name := by
    rw [h1] at hread
    simpa using hread.symm
  refine ⟨by rw [h1]; rfl, ?_, doubleCheck_ne _⟩
  rw [handleCompleteCommand_ok hch2 hty2 hms2 hedit2 hresp2]
  simp [Result.renames, hname, completeTitle_twice]

/-- Witness for C8: completing `[VICE-BUG-3] Crash on load` twice. -/
theorem complete_twice_witness :
    (handleCompleteCommand Counters.init
      (okSession ChannelTypeGuildPublicThread "✅ [VICE-BUG-3] Crash on load" [])
      (slash "complete" [])).renames = ["✅ ✅ [VICE-BUG-3] Crash on load"] ∧
    "✅ ✅ " ++ "[VICE-BUG-3] Crash on load" ≠ "✅ " ++ "[VICE-BUG-3] Crash on load" := by
  have h := complete_twice Counters.init
    (okSession ChannelTypeGuildPublicThread "[VICE-BUG-3] Crash on load" [msgBy "@alice"])
    (okSession ChannelTypeGuildPublicThread "✅ [VICE-BUG-3] Crash on load" [])
    (slash "complete" []) (slash "complete" [])
    ⟨"chan-1", ChannelTypeGuildPublicThread, "[VICE-BUG-3] Crash on load"⟩
    ⟨"chan-1", ChannelTypeGuildPublicThread, "✅ [VICE-BUG-3] Crash on load"⟩
    [msgBy "@alice"] [] rfl rfl rfl rfl rfl rfl rfl rfl rfl rfl (by decide)
  exact ⟨h.2.1, h.2.2⟩

/-- C9: on a public thread whose history fetch returns the empty list (the
other platform calls succeeding), each of the four handlers returns normally,
uses the text `unknown user` for the poster in its reply and console line, and
still renames the thread; the two open handlers still increment their counter.
For the open handlers this holds of the program they run, whatever other
handlers do meanwhile, and the stated result is the one of a handler running
alone; for complete and notdoing it holds for every interaction, with or
without options.  Moreover no handler ever ends in an out-of-range panic on
the message page, whatever the platform answers (for the open handlers: given
the command carries its name option). -/
theorem empty_history_unknown_user (s : Counters) (d : Session) (i : Interaction)
    (ch : Channel) (name : String) (rest : List String)
    (hopt : i.Options = name :: rest) (hch : d.Channel = .ok ch)
    (hty : ch.Type_ = ChannelTypeGuildPublicThread) (hjoin : d.ThreadMemberAdd = none)
    (hms : d.ChannelMessages = .ok []) (hedit : d.ChannelEdit = none)
    (hresp : d.InteractionRespond = none) :
    (handleBugCommand d i = bugOpenSteps d i ch "unknown user" name ∧
     (handleBugCommand d i).exec s [] =
      ⟨{ s with TicketCountBugReport := wrapInt (s.TicketCountBugReport + 1) },
       [.Channel i.ChannelID, .ThreadMemberAdd ch.ID d.UserID, .ChannelMessages ch.ID 1,
        .ChannelEdit ch.ID (bugTitle (wrapInt (s.TicketCountBugReport + 1)) name),
        .InteractionRespond (bugReply "unknown user" (wrapInt (s.TicketCountBugReport + 1))),
        .Println ("Bug report accepted for: " ++ "unknown user")], .returned⟩) ∧
    (handleFeatureCommand d i = featureOpenSteps d i ch "unknown user" name ∧
     (handleFeatureCommand d i).exec s [] =
      ⟨{ s with TicketCountFeatureRequest := wrapInt (s.TicketCountFeatureRequest + 1) },
       [.Channel i.ChannelID, .ThreadMemberAdd ch.ID d.UserID, .ChannelMessages ch.ID 1,
        .ChannelEdit ch.ID (featureTitle (wrapInt (s.TicketCountFeatureRequest + 1)) name),
        .InteractionRespond
          (featureReply "unknown user" (wrapInt (s.TicketCountFeatureRequest + 1))),
        .Println ("Feature request accepted for: " ++ "unknown user")], .returned⟩) ∧
    (∀ (e : Session) (c : Channel) (j : Interaction),
      e.Channel = .ok c → c.Type_ = ChannelTypeGuildPublicThread →
      e.ChannelMessages = .ok [] → e.ChannelEdit = none → e.InteractionRespond = none →
      handleCompleteCommand s e j =
        ⟨s, [.Channel j.ChannelID, .ChannelMessages c.ID 50,
          .ChannelEdit c.ID ("✅ " ++ c.Name),
          .InteractionRespond (completeReply "unknown user"),
          .Println ("Bug report or feature request marked as complete for: " ++
            "unknown user")],
         .returned⟩ ∧
      handleNotDoingCommand s e j =
        ⟨s, [.Channel j.ChannelID, .ChannelMessages c.ID 1,
          .ChannelEdit c.ID (c.Name ++ " ❌"),
          .InteractionRespond (notDoingReply "unknown user"),
          .Println ("Feature request marked as not doing for: " ++ "unknown user")],
         .returned⟩) ∧
    (∀ (s0 : Counters) (d0 : Session) (i0 : Interaction),
      (handleCompleteCommand s0 d0 i0).exit ≠ .panic ∧
      (handleNotDoingCommand s0 d0 i0).exit ≠ .panic ∧
      (i0.Options ≠ [] →
        (handleBugCommand d0 i0).neverPanics ∧ (handleFeatureCommand d0 i0).neverPanics)) := by
  have e1 : firstPoster ([] : List Message) = "unknown user" := rfl
  have e2 : lastPoster ([] : List Message) = "unknown user" := rfl
  have h1 := handleBugCommand_ok hopt hch hty hjoin hms hedit hresp
  have h2 := handleFeatureCommand_ok hopt hch hty hjoin hms hedit hresp
  rw [e1] at h1 h2
  refine ⟨⟨h1, ?_⟩, ⟨h2, ?_⟩, ?_, fun s0 d0 i0 => ⟨no_panic_complete s0 d0 i0,
    no_panic_notDoing s0 d0 i0, fun h => ⟨no_panic_bug d0 i0 h, no_panic_feature d0 i0 h⟩⟩⟩
  · rw [h1, bugOpenSteps_exec]
    rfl
  · rw [h2, featureOpenSteps_exec]
    rfl
  · intro e c j hc ht hm he hr
    have h3 := handleCompleteCommand_ok (s := s) (i := j) hc ht hm he hr
    have h4 := handleNotDoingCommand_ok (s := s) (i := j) hc ht hm he hr
    rw [e1] at h4
    rw [e2] at h3
    simp only [completeTitle] at h3
    simp only [notDoingTitle] at h4
    exact ⟨h3, h4⟩

/-- Witness for C9: `/bug`, `/complete` and `/notdoing` on a thread with an
empty history page. -/
theorem empty_history_unknown_user_witness :
    ((handleBugCommand emptyThread crashBug).exec Counters.init []).replies =
      [bugReply "unknown user" 1] ∧
    ((handleBugCommand emptyThread crashBug).exec Counters.init []).renames =
      ["[VICE-BUG-1] Crash on load"] ∧
    (handleCompleteCommand Counters.init emptyThread completeCmd).exit = .returned ∧
    (handleCompleteCommand Counters.init emptyThread completeCmd).replies =
      ["Good news, unknown user! Your bug report or feature request has been marked as complete. Thank you for your patience! ✅"] ∧
    (handleNotDoingCommand Counters.init emptyThread notDoingCmd).renames =
      ["help wanted ❌"] ∧
    (handleNotDoingCommand Counters.init emptyThread notDoingCmd).replies =
      ["Unfortunately, unknown user, your feature request will not be implemented at this time. We appreciate your suggestion and encourage you to keep submitting ideas in the future."] := by
  have h := empty_history_unknown_user Counters.init emptyThread crashBug
    ⟨"chan-1", ChannelTypeGuildPublicThread, "help wanted"⟩ "Crash on load" []
    rfl rfl rfl rfl rfl rfl rfl
  have hc := (h.2.2.1 emptyThread ⟨"chan-1", ChannelTypeGuildPublicThread, "help wanted"⟩
    completeCmd rfl rfl rfl rfl rfl).1
  have hn := (h.2.2.1 emptyThread ⟨"chan-1", ChannelTypeGuildPublicThread, "help wanted"⟩
    notDoingCmd rfl rfl rfl rfl rfl).2
  refine ⟨?_, ?_, ?_, ?_, ?_, ?_⟩
  · rw [h.1.2]; rfl
  · rw [h.1.2]; rfl
  · rw [hc]
  · rw [hc]; rfl
  · rw [hn]; rfl
  · rw [hn]; rfl

/-- C10: on a non-empty fetched page, the complete command asks for 50 messages
and names the author of the last element of the page, while the bug, feature
and notdoing commands ask for 1 message and name the author of the first
element; on a one-element page the two rules name the same author.  For
complete and notdoing this holds for every interaction, with or without
options; for the open handlers it holds of the program they run, whatever other
handlers do meanwhile. -/
theorem poster_resolution (s : Counters) (d : Session) (i : Interaction)
    (ch : Channel) (ms : List Message) (name : String) (rest : List String)
    (hopt : i.Options = name :: rest) (hch : d.Channel = .ok ch)
    (hty : ch.Type_ = ChannelTypeGuildPublicThread) (hjoin : d.ThreadMemberAdd = none)
    (hms : d.ChannelMessages = .ok ms) (hedit : d.ChannelEdit = none)
    (hresp : d.InteractionRespond = none) (hne : ms ≠ []) :
    (∀ (e : Session) (c : Channel) (j : Interaction) (page : List Message)
        (hp : page ≠ []),
      e.Channel = .ok c → c.Type_ = ChannelTypeGuildPublicThread →
      e.ChannelMessages = .ok page → e.ChannelEdit = none → e.InteractionRespond = none →
      ((handleCompleteCommand s e j).fetchLimits = [50] ∧
        (handleCompleteCommand s e j).replies =
          [completeReply (page.getLast hp).Author.Mention]) ∧
      ((handleNotDoingCommand s e j).fetchLimits = [1] ∧
        (handleNotDoingCommand s e j).replies =
          [notDoingReply (page.head hp).Author.Mention])) ∧
    (handleBugCommand d i = bugOpenSteps d i ch (ms.head hne).Author.Mention name ∧
      ((handleBugCommand d i).exec s []).fetchLimits = [1] ∧
      ((handleBugCommand d i).exec s []).replies =
        [bugReply (ms.head hne).Author.Mention (wrapInt (s.TicketCountBugReport + 1))]) ∧
    (handleFeatureCommand d i = featureOpenSteps d i ch (ms.head hne).Author.Mention name ∧
      ((handleFeatureCommand d i).exec s []).fetchLimits = [1] ∧
      ((handleFeatureCommand d i).exec s []).replies =
        [featureReply (ms.head hne).Author.Mention
          (wrapInt (s.TicketCountFeatureRequest + 1))]) ∧
    (∀ (page : List Message) (hp : page ≠ []),
      page.length = 1 → page.getLast hp = page.head hp) := by
  have h1 := handleBugCommand_ok hopt hch hty hjoin hms hedit hresp
  have h2 := handleFeatureCommand_ok hopt hch hty hjoin hms hedit hresp
  rw [firstPoster_eq_head ms hne] at h1 h2
  refine ⟨?_, ⟨h1, ?_⟩, ⟨h2, ?_⟩, ?_⟩
  · intro e c j page hp hc ht hm he hr
    rw [handleCompleteCommand_ok hc ht hm he hr, handleNotDoingCommand_ok hc ht hm he hr,
      firstPoster_eq_head page hp, lastPoster_eq_getLast page hp]
    simp [Result.fetchLimits, Result.replies]
  · rw [h1, bugOpenSteps_exec]
    simp [Result.fetchLimits, Result.replies]
  · rw [h2, featureOpenSteps_exec]
    simp [Result.fetchLimits, Result.replies]
  · intro page hp hlen
    match page, hp, hlen with
    | [m], _, _ => rfl

/-- Witness for C10: `/complete` and `/notdoing` on a page with three messages,
newest first, and `/bug` on a page with one message. -/
theorem poster_resolution_witness :
    (handleCompleteCommand Counters.init busyThread completeCmd).replies =
      [completeReply "@alice"] ∧
    (handleCompleteCommand Counters.init busyThread completeCmd).fetchLimits = [50] ∧
    (handleNotDoingCommand Counters.init busyThread notDoingCmd).replies =
      [notDoingReply "@carol"] ∧
    (handleNotDoingCommand Counters.init busyThread notDoingCmd).fetchLimits = [1] ∧
    ((handleBugCommand aliceThread crashBug).exec Counters.init []).replies =
      [bugReply "@alice" 1] ∧
    ((handleBugCommand aliceThread crashBug).exec Counters.init []).fetchLimits = [1] := by
  have h := poster_resolution Counters.init aliceThread crashBug
    ⟨"chan-1", ChannelTypeGuildPublicThread, "help wanted"⟩
    [msgBy "@alice"] "Crash on load" []
    rfl rfl rfl rfl rfl rfl rfl (by decide)
  have hc := (h.1 busyThread ⟨"chan-1", ChannelTypeGuildPublicThread, "help wanted"⟩
    completeCmd [msgBy "@carol", msgBy "@bob", msgBy "@alice"] (by decide)
    rfl rfl rfl rfl rfl).1
  have hn := (h.1 busyThread ⟨"chan-1", ChannelTypeGuildPublicThread, "help wanted"⟩
    notDoingCmd [msgBy "@carol", msgBy "@bob", msgBy "@alice"] (by decide)
    rfl rfl rfl rfl rfl).2
  exact ⟨hc.2, hc.1, hn.2, hn.1, h.2.1.2.2, h.2.1.2.1⟩

end Bot
